import Mathlib

/-
Verification of the py-seed HTTP client library (SEED-platform/py-seed).

This file gives a shallow embedding of the pure decision logic of the
library -- response classification (SEEDBaseClient._check_response),
result extraction (SEEDBaseClient._get_result), URL construction
(_get_urls, add_pk, _replace_url_args, the CRUD mixins), authentication
selection (UserAuthMixin._get_auth), BaseAPI._construct_url, the
progress-polling loop (SeedClient.track_progress_result) and the CSV
mapping reader (read_map_file) -- and proves properties about it.

Modelling conventions:
  * JSON values are the inductive `Json` below; Python dicts are
    association lists (first match wins, mirroring dict key uniqueness).
  * Python bytes and str are both modelled as Lean String.
  * A raised Python exception is `Except.error (e : PyExc)`.
  * An HTTP response is a record of the fields the library reads:
    status_code, Content-Type header, raw content, the JSON parse of the
    content (none when json() would raise a decode error), and the
    request url and method.
-/

set_option maxRecDepth 4000

namespace PySeed

/-- JSON values as delivered by response.json(). Numbers are modelled as
integers, which covers every numeric literal this library inspects. -/
inductive Json where
  | null
  | bool (b : Bool)
  | num (n : Int)
  | str (s : String)
  | arr (elems : List Json)
  | obj (fields : List (String × Json))

mutual

/-- Structural equality on JSON values, modelling Python == on parsed JSON. -/
def Json.beq : Json → Json → Bool
  | .null, .null => true
  | .bool a, .bool b => a == b
  | .num a, .num b => a == b
  | .str a, .str b => a == b
  | .arr xs, .arr ys => Json.beqList xs ys
  | .obj xs, .obj ys => Json.beqObj xs ys
  | _, _ => false

/-- Elementwise equality of JSON arrays. -/
def Json.beqList : List Json → List Json → Bool
  | [], [] => true
  | x :: xs, y :: ys => Json.beq x y && Json.beqList xs ys
  | _, _ => false

/-- Elementwise equality of JSON objects (order-sensitive, as association lists). -/
def Json.beqObj : List (String × Json) → List (String × Json) → Bool
  | [], [] => true
  | (k1, v1) :: xs, (k2, v2) :: ys => k1 == k2 && Json.beq v1 v2 && Json.beqObj xs ys
  | _, _ => false

end

/-- Python truthiness of a JSON value: None, False, 0, "", [], \x7b\x7d are falsy. -/
def pyTruthy : Json → Bool
  | .null => false
  | .bool b => b
  | .num n => n != 0
  | .str s => s != ""
  | .arr xs => !xs.isEmpty
  | .obj fs => !fs.isEmpty

/-- dict key lookup: d.get(k) distinguished from absence by the Option. -/
def jsonLookup (j : Json) (key : String) : Option Json :=
  match j with
  | .obj fields => (fields.find? (fun kv => kv.1 == key)).map (·.2)
  | _ => none

/-- The keys of a JSON dict (empty for non-dicts). -/
def jsonKeys : Json → List String
  | .obj fields => fields.map (·.1)
  | _ => []

/-- Whether the value is a dict (has a .get attribute in Python terms). -/
def Json.isObj : Json → Bool
  | .obj _ => true
  | _ => false

/-- Whether the value is JSON null (Python None). -/
def Json.isNull : Json → Bool
  | .null => true
  | _ => false

/-- Exceptions the modelled code can raise. `seedError` carries the
fields pyseed.exceptions.SEEDError stores (the caller field, derived at
runtime via inspect.stack, is not modelled). The message can be an
arbitrary JSON value because _check_response assigns
response.json().get("message", ...) to it unchanged. -/
inductive PyExc where
  | seedError (msg : Json) (url : String) (verb : String) (status_code : Nat)
  | apiClientError (msg : String)
  | typeError (msg : String)
  | keyError
  | indexError
  | attributeError (msg : String)
  | jsonDecodeError
  | exc (msg : String)

/-- Python s.startswith(pre), on the character lists. -/
def pyStartsWith (s pre : String) : Bool :=
  pre.data.isPrefixOf s.data

/-- Python s.endswith(suffix), on the character lists. -/
def pyEndsWith (s suffix : String) : Bool :=
  suffix.data.isSuffixOf s.data

/-- Python substring test `pat in s`. -/
def strContainsSubstr (s pat : String) : Bool :=
  (List.range (s.length + 1)).any (fun i => pyStartsWith (s.drop i) pat)

/-- Python s.lstrip(chars): remove leading characters drawn from `chars`. -/
def pyLstrip (s chars : String) : String :=
  ⟨s.data.dropWhile (fun c => chars.data.contains c)⟩

/-- Python s.rstrip(chars): remove trailing characters drawn from `chars`. -/
def pyRstrip (s chars : String) : String :=
  ⟨(s.data.reverse.dropWhile (fun c => chars.data.contains c)).reverse⟩

/-- Python str.strip() default whitespace set. -/
def pyWhitespace : List Char := [' ', '\t', '\n', '\r', '\x0b', '\x0c']

/-- Python s.strip(): remove leading and trailing whitespace. -/
def pyStrip (s : String) : String :=
  ⟨((s.data.dropWhile (fun c => pyWhitespace.contains c)).reverse.dropWhile
      (fun c => pyWhitespace.contains c)).reverse⟩

/-- Python s.lower() (ASCII-adequate model). -/
def pyLower (s : String) : String := ⟨s.data.map Char.toLower⟩

/-- Python s.isdigit(): nonempty and all digits. -/
def pyIsdigit (s : String) : Bool :=
  s != "" && s.data.all Char.isDigit

/-- Python s.rsplit(sep, maxsplit) for a one-character separator "/". -/
def pyRsplitSlash (s : String) (maxsplit : Nat) : List String :=
  let parts := s.splitOn "/"
  if parts.length ≤ maxsplit + 1 then parts
  else
    String.intercalate "/" (parts.take (parts.length - maxsplit)) ::
      parts.drop (parts.length - maxsplit)

/-- Python list indexing with IndexError on overflow. -/
def pyIdx (xs : List String) (i : Nat) : Except PyExc String :=
  match xs.get? i with
  | some v => .ok v
  | none => .error .indexError

/-- Falsiness of an optional string attribute (None or ""). -/
def optFalsy : Option String → Bool
  | none => true
  | some s => s == ""

/-- An HTTP response as seen through the attributes the library reads.
`body` is the JSON parse of `content`; `none` models a body on which
response.json() raises a decode error (a ValueError subclass). -/
structure Response where
  status_code : Nat
  content_type : Option String
  content : String
  body : Option Json
  request_url : String
  request_method : String

/-- Test on the Content-Type header, modelling Python
`pat in response.headers.get("Content-Type", [])`: substring test on the
header when present, membership in [] (always False) when absent. -/
def ctContains (resp : Response) (pat : String) : Bool :=
  match resp.content_type with
  | some ct => strContainsSubstr ct pat
  | none => false

/-- The spreadsheet content type string tested by _check_response. -/
def xlsxContentType : String :=
  "application/vnd.openxmlformats-officedocument.spreadsheetml.sheet"

mutual

/-- Python str()/repr() of a parsed JSON value, used in the f-strings of
_check_response error messages. -/
def jsonPyRepr : Json → String
  | .null => "None"
  | .bool true => "True"
  | .bool false => "False"
  | .num n => toString n
  | .str s => "\x27" ++ s ++ "\x27"
  | .arr xs => "[" ++ jsonPyReprList xs ++ "]"
  | .obj fs => "\x7b" ++ jsonPyReprObj fs ++ "\x7d"

/-- Comma-joined reprs of array elements. -/
def jsonPyReprList : List Json → String
  | [] => ""
  | [x] => jsonPyRepr x
  | x :: xs => jsonPyRepr x ++ ", " ++ jsonPyReprList xs

/-- Comma-joined reprs of dict entries. -/
def jsonPyReprObj : List (String × Json) → String
  | [] => ""
  | [(k, v)] => "\x27" ++ k ++ "\x27: " ++ jsonPyRepr v
  | (k, v) :: xs => "\x27" ++ k ++ "\x27: " ++ jsonPyRepr v ++ ", " ++ jsonPyReprObj xs

end

/-- The allowed status codes of _check_response: OK, Created, Accepted,
No-Content (seed_client_base.py line 217). -/
def statusAllowed (code : Nat) : Bool :=
  [200, 201, 202, 204].contains code

/-- The error flag computed by _check_response for a JSON dict body
(seed_client_base.py lines 236-269). Raises AttributeError when
"progress_data" maps to a non-dict (the source calls .get on it). -/
def dictFlag (j : Json) : Except PyExc Bool :=
  let status_field := (jsonLookup j "status").getD .null
  let has_progress_key := (jsonLookup j "progress_key").isSome
  if pyTruthy status_field then
    if has_progress_key then
      -- status_field not in ["not-started", "success", "parsing"]
      .ok (!(["not-started", "success", "parsing"].any
        (fun s => Json.beq status_field (.str s))))
    else if Json.beq status_field (.str "error") then .ok true
    else
      -- "success" and any other truthy status leave error = False
      .ok false
  else if (jsonLookup j "success").isSome then
    -- for file uploads the response key is "success"
    .ok (!(pyTruthy ((jsonLookup j "success").getD .null)))
  else if (jsonLookup j "progress_data").isSome then
    match (jsonLookup j "progress_data").getD .null with
    | .obj pdFields =>
        let status_flag := ((pdFields.find? (fun kv => kv.1 == "status")).map (·.2)).getD .null
        .ok (!(["not-started", "success", "parsing"].any
          (fun s => Json.beq status_flag (.str s))))
    | _ => .error (.attributeError "object has no attribute get")
  else if !((jsonKeys j).any (fun k =>
      ["results", "readings", "data", "status", "id", "organizations", "sha", "users"].contains k)) then
    .ok true
  else .ok false

/-- The (error, error_msg) state of _check_response after the status/content
classification chain (seed_client_base.py lines 210-272), before the final
raise. Raises the JSON decode error when the chain evaluates response.json()
on an unparsable body. -/
def checkFlag (resp : Response) : Except PyExc (Bool × String) :=
  let msg0 := "Unknown error from SEED API"
  if !(statusAllowed resp.status_code) then
    .ok (true, "SEED returned status code: " ++ toString resp.status_code)
  else if resp.status_code == 204 then
    .ok (false, msg0)
  else if ctContains resp xlsxContentType then
    .ok (false, msg0)
  else if ctContains resp "application/pdf" then
    .ok (false, msg0)
  else if !(ctContains resp "application/json") then
    -- text response: an empty body is an error
    .ok (resp.content == "", msg0)
  else
    match resp.body with
    | none => .error .jsonDecodeError
    | some j =>
      match j with
      | .obj _ => (dictFlag j).map (fun b => (b, msg0))
      | .arr _ => .ok (false, msg0)
      | _ => .ok (true, msg0)

/-- The error message _check_response attaches when the error flag is set
(seed_client_base.py lines 274-282). When the body is a dict its "message"
entry is forwarded unchanged, hence the Json result type. -/
def checkErrMsg (resp : Response) (baseMsg : String) : Json :=
  if resp.content != "" then
    match resp.body with
    | none => .str "Unknown SEED Error: No response returned"
    | some j =>
      if j.isObj then
        match jsonLookup j "message" with
        | some v => v
        | none => .str ("Unknown SEED Error " ++ toString resp.status_code ++ ": " ++ jsonPyRepr j)
      else .str ("Unknown SEED Error " ++ toString resp.status_code ++ ": " ++ jsonPyRepr j)
  else .str baseMsg

/-- SEEDBaseClient._check_response: ok () when no error is detected,
otherwise the SEEDError raised through _raise_error, which carries the
message, request url, request method and status code. -/
def checkResponse (resp : Response) : Except PyExc Unit :=
  match checkFlag resp with
  | .error e => .error e
  | .ok (false, _) => .ok ()
  | .ok (true, baseMsg) =>
      .error (.seedError (checkErrMsg resp baseMsg)
        resp.request_url resp.request_method resp.status_code)

/-- The value a CRUD wrapper hands back: raw bytes for spreadsheet
responses, a JSON value otherwise. -/
inductive ResultVal where
  | raw (content : String)
  | json (j : Json)

/-- The data_name derived from the request url when none was supplied
(seed_client_base.py lines 302-306):
url.lstrip(base_url).rstrip("/").rsplit("/", 1), then the last segment,
or the one before it when the last is a digit. Note lstrip strips a
character set, faithfully modelled by pyLstrip. List indexing can raise
IndexError on degenerate urls. -/
def deriveDataName (base_url url : String) : Except PyExc String :=
  let durl := pyRsplitSlash (pyRstrip (pyLstrip url base_url) "/") 1
  match pyIdx durl 1 with
  | .error e => .error e
  | .ok lastSeg =>
    if pyIsdigit lastSeg then
      match pyIdx durl 0 with
      | .error e => .error e
      | .ok head => pyIdx (pyRsplitSlash head 2) 1
    else .ok lastSeg

/-- The constraining loop of _get_result (seed_client_base.py lines
315-326): try data_name, then "data", then "detail"; take the first
entry whose value is not None; a non-dict result is returned unchanged. -/
def constrainResult (result : Json) : List String → Json
  | [] => result
  | dname :: rest =>
    match result with
    | .obj _ =>
      match jsonLookup result dname with
      | some v => if v.isNull then constrainResult result rest else v
      | none => constrainResult result rest
    | _ => constrainResult result rest

/-- The data_name _get_result ends up using: the one supplied when it is
truthy, otherwise the one derived from the request url. -/
def effectiveDataName (base_url : String) (resp : Response) (data_name : Option String) :
    Except PyExc String :=
  if optFalsy data_name then deriveDataName base_url resp.request_url
  else .ok (data_name.getD "")

/-- SEEDBaseClient._get_result: extract the result payload from a checked
response (seed_client_base.py lines 287-332). base_url is the client's
self.base_url. data_name is the resolved data_name (None when neither the
call nor the instance provided one). -/
def getResult (base_url : String) (resp : Response) (data_name : Option String) :
    Except PyExc ResultVal :=
  if ctContains resp xlsxContentType then
    .ok (.raw resp.content)
  else if !(ctContains resp "application/json") then
    .ok (.json (.obj [("status", .str "success"), ("content", .str resp.content)]))
  else
    match effectiveDataName base_url resp data_name with
    | .error e => .error e
    | .ok dn =>
      let resultE : Except PyExc Json :=
        if resp.status_code == 204 then .ok (.obj [("status", .str "success")])
        else match resp.body with
          | some j => .ok j
          | none => .error .jsonDecodeError
      match resultE with
      | .error e => .error e
      | .ok result =>
        if result.isNull then
          .error (.seedError (.str "No results returned")
            resp.request_url resp.request_method resp.status_code)
        else
          let result2 := if dn != "all" then constrainResult result [dn, "data", "detail"] else result
          if result2.isNull then
            .error (.seedError (.str ("Could not find result using data_name " ++ dn ++ "."))
              resp.request_url resp.request_method resp.status_code)
          else .ok (.json result2)

/-- The fixed v3 endpoint map URLS["v3"] (seed_client_base.py lines 31-83). -/
def URLS_v3 : List (String × String) := [
  ("column_mapping_profiles", "/api/v3/column_mapping_profiles/"),
  ("column_mapping_profiles_filter", "/api/v3/column_mapping_profiles/filter/"),
  ("columns", "/api/v3/columns/"),
  ("cycles", "/api/v3/cycles/"),
  ("datasets", "/api/v3/datasets/"),
  ("gbr_properties", "/api/v3/gbr_properties/"),
  ("green_assessment", "/api/v3/green_assessments/"),
  ("green_assessment_property", "/api/v3/green_assessment_properties/"),
  ("green_assessment_url", "/api/v3/green_assessment_urls/"),
  ("import_files", "/api/v3/import_files/"),
  ("import_files_reuse_inventory_file_for_meters", "/api/v3/import_files/reuse_inventory_file_for_meters/"),
  ("labels", "/api/v3/labels/"),
  ("labels_property", "/api/v3/labels_property/"),
  ("labels_taxlot", "/api/v3/labels_taxlot/"),
  ("organizations", "/api/v3/organizations/"),
  ("portfolio_manager_report", "/api/v3/portfolio_manager/report/"),
  ("portfolio_manager_report_templates", "/api/v3/portfolio_manager/template_list/"),
  ("properties", "/api/v3/properties/"),
  ("properties_labels", "/api/v3/properties/labels/"),
  ("properties_search", "/api/v3/properties/search/"),
  ("property_views", "/api/v3/property_views/"),
  ("taxlots", "/api/v3/taxlots/"),
  ("upload", "/api/v3/upload/"),
  ("users", "/api/v3/users/"),
  ("version", "/api/version/"),
  ("import_files_check_meters_tab_exists_pk", "/api/v3/import_files/PK/check_meters_tab_exists/"),
  ("import_files_start_map_data_pk", "/api/v3/import_files/PK/map/"),
  ("import_files_start_matching_pk", "/api/v3/import_files/PK/start_system_matching_and_geocoding/"),
  ("import_files_start_save_data_pk", "/api/v3/import_files/PK/start_save_data/"),
  ("org_column_mapping_import_file", "api/v3/organizations/ORG_ID/column_mappings/"),
  ("portfolio_manager_property_download", "/api/v3/portfolio_manager/PK/download/"),
  ("properties_update_with_buildingsync", "api/v3/properties/PK/update_with_building_sync/"),
  ("properties_upload_inventory_document", "api/v3/properties/PK/upload_inventory_document"),
  ("property_update_with_espm", "api/v3/properties/PK/update_with_espm/"),
  ("analyses_views", "/api/v3/analyses/PK/views/ANALYSIS_VIEW_PK/"),
  ("audit_template_building_xml", "/api/v3/audit_template/PK/get_building_xml"),
  ("audit_template_submission", "/api/v3/audit_template/PK/get_submission"),
  ("import_files_matching_results", "/api/v3/import_files/PK/matching_and_geocoding_results/"),
  ("properties_cross_cycle_data", "/api/v3/properties/PK/links/"),
  ("progress", "/api/v3/progress/PROGRESS_KEY/"),
  ("properties_analyses", "/api/v3/properties/PK/analyses/"),
  ("properties_meter_usage", "/api/v3/properties/PK/meter_usage/"),
  ("properties_meters", "/api/v3/properties/PK/meters/"),
  ("properties_meters_reading", "/api/v3/properties/PK/meters/METER_PK/readings/")
]

/-- Association list lookup: Python dict[key] access on the url map. -/
def assocLookup (m : List (String × String)) (key : String) : Option String :=
  (m.find? (fun kv => kv.1 == key)).map (·.2)

/-- The joined url "\x7b\x7d/\x7b\x7d".format(base_url.rstrip("/"), val.lstrip("/"))
built by _get_urls for each map entry. -/
def joinUrl (base_url val : String) : String :=
  pyRstrip base_url "/" ++ "/" ++ pyLstrip val "/"

/-- _get_urls (seed_client_base.py lines 87-92) applied to a url map. -/
def getUrls (base_url : String) (url_map : List (String × String)) :
    List (String × String) :=
  url_map.map (fun kv => (kv.1, joinUrl base_url kv.2))

/-- _replace_url_args (seed_client_base.py lines 110-115): replace each
"/key/" with "/value/" in the url. -/
def replaceUrlArgs (url : String) (url_args : List (String × String)) : String :=
  url_args.foldl (fun u kv => u.replace ("/" ++ kv.1 ++ "/") ("/" ++ kv.2 ++ "/")) url

/-- A Python pk argument: an int, a str, None, or some other object
(truthy, neither int nor str; its repr is irrelevant because add_pk
always raises on it before formatting). -/
inductive PyPk where
  | pint (n : Int)
  | pstr (s : String)
  | pnone
  | pother

/-- Truthiness of a pk argument. -/
def pkTruthy : PyPk → Bool
  | .pint n => n != 0
  | .pstr s => s != ""
  | .pnone => false
  | .pother => true

/-- isinstance(pk, str). -/
def pkIsStr : PyPk → Bool
  | .pstr _ => true
  | _ => false

/-- isinstance(pk, (int, str)). -/
def pkIsIntOrStr : PyPk → Bool
  | .pint _ => true
  | .pstr _ => true
  | _ => false

/-- int(pk) for an int or digit-string pk (the only cases the source
reaches it on). -/
def pkToInt : PyPk → Int
  | .pint n => n
  | .pstr s => (s.toNat?).getD 0
  | _ => 0

/-- f"\x7bpk\x7d" for the pks that reach string formatting. -/
def pkStr : PyPk → String
  | .pint n => toString n
  | .pstr s => s
  | .pnone => "None"
  | .pother => ""

/-- apibase.add_pk (apibase.py lines 14-25). -/
def add_pk (url : String) (pk : PyPk) (required : Bool) (slash : Bool) :
    Except PyExc String :=
  if required && !(pkTruthy pk) then
    .error (.apiClientError "id/pk must be supplied")
  else
    let stepE : Except PyExc String :=
      if pkTruthy pk then
        if (pkIsStr pk && !(pyIsdigit (pkStr pk))) ||
            (!(pkIsIntOrStr pk) || pkToInt pk < 0) then
          .error (.typeError "id/pk must be a positive integer")
        else
          .ok (if !(pyEndsWith url "/") then url ++ "/" ++ pkStr pk else url ++ pkStr pk)
      else .ok url
    match stepE with
    | .error e => .error e
    | .ok u => .ok (if slash && !(pyEndsWith u "/") then u ++ "/" else u)

/-- The SEEDBaseClient state the CRUD mixins read: org_id, the
normalized base_url (after __init__ appended port and trailing slash),
and the optional endpoint/data_name instance attributes. -/
structure Client where
  org_id : Int
  base_url : String
  endpoint : Option String
  data_name : Option String

/-- self.urls as built in SEEDBaseClient.__init__ from the v3 map. -/
def clientUrls (c : Client) : List (String × String) :=
  getUrls c.base_url URLS_v3

/-- _set_default for a required attribute (seed_client_base.py lines
95-107): a falsy argument falls back to the instance attribute; if the
result is still falsy an AttributeError is raised. -/
def setDefaultReq (val attr : Option String) (key : String) : Except PyExc String :=
  let v := if optFalsy val then attr else val
  if optFalsy v then .error (.attributeError (key ++ " is not set"))
  else .ok (v.getD "")

/-- _set_default for the optional data_name (required=False): same
fallback, no raise; the result may remain falsy. -/
def resolveDn (val attr : Option String) : Option String :=
  if optFalsy val then attr else val

/-- self.urls[endpoint]: dict subscript, KeyError when absent. -/
def lookupUrl (c : Client) (ep : String) : Except PyExc String :=
  match assocLookup (clientUrls c) ep with
  | some u => .ok u
  | none => .error .keyError

/-- Python "/" in endpoint (substring, i.e. character containment). -/
def containsSlash (s : String) : Bool :=
  s.data.contains '/'

/-- Ensure a trailing slash, as post and list do before the request. -/
def ensureSlash (url : String) : String :=
  if !(pyEndsWith url "/") then url ++ "/" else url

/-- The request url computed by ReadMixin.get (seed_client_base.py
line 433-436) for a resolved endpoint name. -/
def urlForGet (c : Client) (ep : String) (pk : PyPk) (required_pk : Bool)
    (url_args : List (String × String)) (org_id_qp : Bool) : Except PyExc String :=
  match lookupUrl c ep with
  | .error e => .error e
  | .ok base =>
    match add_pk base pk required_pk true with
    | .error e => .error e
    | .ok u =>
      let u := replaceUrlArgs u url_args
      .ok (if org_id_qp then u ++ "?organization_id=" ++ toString c.org_id else u)

/-- The request url computed by ReadMixin.list (lines 454-457). -/
def urlForList (c : Client) (ep : String) (url_args : List (String × String)) :
    Except PyExc String :=
  match lookupUrl c ep with
  | .error e => .error e
  | .ok base => .ok (replaceUrlArgs (ensureSlash base) url_args)

/-- The request url computed by CreateMixin.post (lines 397-406): a
fully qualified url (containing "/") is used as-is, otherwise the
endpoint name is looked up, and an unknown name raises a plain
Exception. -/
def urlForPost (c : Client) (ep : String) (url_args : List (String × String)) :
    Except PyExc String :=
  if containsSlash ep then
    .ok (replaceUrlArgs (ensureSlash ep) url_args)
  else
    match assocLookup (clientUrls c) ep with
    | some base => .ok (replaceUrlArgs (ensureSlash base) url_args)
    | none => .error (.exc ("Unknown endpoint: " ++ ep))

/-- The request url computed by UpdateMixin.put/patch and
DeleteMixin.delete (lines 482-483, 503-504, 530-531). -/
def urlForPk (c : Client) (ep : String) (pk : PyPk) (required_pk : Bool)
    (url_args : List (String × String)) : Except PyExc String :=
  match lookupUrl c ep with
  | .error e => .error e
  | .ok base =>
    match add_pk base pk required_pk true with
    | .error e => .error e
    | .ok u => .ok (replaceUrlArgs u url_args)

/-- The response-handling tail shared by the CRUD wrappers:
self._check_response(response) then self._get_result(response,
data_name=data_name). -/
def processResponse (c : Client) (resp : Response) (dn : Option String) :
    Except PyExc ResultVal :=
  match checkResponse resp with
  | .error e => .error e
  | .ok _ => getResult c.base_url resp dn

/-- ReadMixin.get as a function of the client state, the call arguments
and the HTTP response the request produced. -/
def wrapperGet (c : Client) (pk : PyPk) (ep dn : Option String)
    (url_args : List (String × String)) (required_pk org_id_qp : Bool)
    (resp : Response) : Except PyExc ResultVal :=
  match setDefaultReq ep c.endpoint "endpoint" with
  | .error e => .error e
  | .ok epv =>
    match urlForGet c epv pk required_pk url_args org_id_qp with
    | .error e => .error e
    | .ok _ => processResponse c resp (resolveDn dn c.data_name)

/-- ReadMixin.list as a function of client state, arguments and response. -/
def wrapperList (c : Client) (ep dn : Option String)
    (url_args : List (String × String)) (resp : Response) : Except PyExc ResultVal :=
  match setDefaultReq ep c.endpoint "endpoint" with
  | .error e => .error e
  | .ok epv =>
    match urlForList c epv url_args with
    | .error e => .error e
    | .ok _ => processResponse c resp (resolveDn dn c.data_name)

/-- CreateMixin.post as a function of client state, arguments and response. -/
def wrapperPost (c : Client) (ep dn : Option String)
    (url_args : List (String × String)) (resp : Response) : Except PyExc ResultVal :=
  match setDefaultReq ep c.endpoint "endpoint" with
  | .error e => .error e
  | .ok epv =>
    match urlForPost c epv url_args with
    | .error e => .error e
    | .ok _ => processResponse c resp (resolveDn dn c.data_name)

/-- UpdateMixin.put as a function of client state, arguments and response. -/
def wrapperPut (c : Client) (pk : PyPk) (ep dn : Option String)
    (url_args : List (String × String)) (required_pk : Bool)
    (resp : Response) : Except PyExc ResultVal :=
  match setDefaultReq ep c.endpoint "endpoint" with
  | .error e => .error e
  | .ok epv =>
    match urlForPk c epv pk required_pk url_args with
    | .error e => .error e
    | .ok _ => processResponse c resp (resolveDn dn c.data_name)

/-- UpdateMixin.patch as a function of client state, arguments and response. -/
def wrapperPatch (c : Client) (pk : PyPk) (ep dn : Option String)
    (url_args : List (String × String)) (required_pk : Bool)
    (resp : Response) : Except PyExc ResultVal :=
  match setDefaultReq ep c.endpoint "endpoint" with
  | .error e => .error e
  | .ok epv =>
    match urlForPk c epv pk required_pk url_args with
    | .error e => .error e
    | .ok _ => processResponse c resp (resolveDn dn c.data_name)

/-- DeleteMixin.delete (seed_client_base.py lines 515-536): on a 204 the
method returns None without checking; otherwise it checks and extracts
like the other wrappers. -/
def wrapperDelete (c : Client) (pk : PyPk) (ep dn : Option String)
    (url_args : List (String × String)) (required_pk : Bool)
    (resp : Response) : Except PyExc (Option ResultVal) :=
  match setDefaultReq ep c.endpoint "endpoint" with
  | .error e => .error e
  | .ok epv =>
    match urlForPk c epv pk required_pk url_args with
    | .error e => .error e
    | .ok _ =>
      if resp.status_code != 204 then
        match processResponse c resp (resolveDn dn c.data_name) with
        | .error e => .error e
        | .ok v => .ok (some v)
      else .ok none

/-- re.sub("^https?://", "", urlstring) from BaseAPI._construct_url. -/
def stripScheme (s : String) : String :=
  if pyStartsWith s "https://" then s.drop 8
  else if pyStartsWith s "http://" then s.drop 7
  else s

/-- The effective use_ssl of BaseAPI._construct_url, used truthily:
self.use_ssl takes priority when it is not None, else the keyword
argument; only True counts as truthy. -/
def effUseSsl (selfUseSsl useSslArg : Option Bool) : Bool :=
  (if selfUseSsl.isSome then selfUseSsl else useSslArg) == some true

/-- BaseAPI._construct_url (apibase.py lines 87-109) as a function of
the instance attributes self.use_ssl and self.url, the urlstring
argument and the use_ssl keyword argument. -/
def constructUrl (selfUseSsl : Option Bool) (selfUrl : Option String)
    (urlstring : Option String) (useSslArg : Option Bool) : Except PyExc String :=
  let ssl := effUseSsl selfUseSsl useSslArg
  if optFalsy urlstring && optFalsy selfUrl then
    .error (.apiClientError "No url set")
  else if optFalsy urlstring then
    .ok (selfUrl.getD "")
  else
    let u := urlstring.getD ""
    if pyStartsWith u "https://" && !ssl then
      .error (.apiClientError "use_ssl is false but url starts with https")
    else if pyStartsWith u "http://" && ssl then
      .error (.apiClientError "use_ssl is true but url does not starts with https")
    else
      .ok ((if ssl then "https://" else "http://") ++ stripScheme u)

/-- The authentication object UserAuthMixin._get_auth builds. -/
inductive Auth where
  | basic (username password : Option String)
  | digest (username password : Option String)

/-- The UserAuthMixin instance attributes _get_auth reads (each may be
unset, modelled as none, exactly what getattr(self, name, None) yields). -/
structure AuthClient where
  username : Option String
  password : Option String
  api_key : Option String
  auth_method : Option String

/-- UserAuthMixin._get_auth (apibase.py lines 271-283): digest auth when
auth_method == "digest", basic auth otherwise; a falsy password falls
back to the api_key attribute. -/
def getAuth (c : AuthClient) : Auth :=
  let password := if optFalsy c.password then c.api_key else c.password
  if c.auth_method == some "digest" then .digest c.username password
  else .basic c.username password

/-- The username an Auth value carries. -/
def Auth.user : Auth → Option String
  | .basic u _ => u
  | .digest u _ => u

/-- The password an Auth value carries. -/
def Auth.pass : Auth → Option String
  | .basic _ p => p
  | .digest _ p => p

/-- Whether the Auth value is digest authentication. -/
def Auth.isDigest : Auth → Bool
  | .digest _ _ => true
  | .basic _ _ => false

/-- Values in the dicts read_map_file builds: four strings and an
optional boolean is_omitted flag. -/
inductive MapVal where
  | s (v : String)
  | b (v : Bool)

/-- One iteration of the read_map_file row loop (utils.py lines
118-133): the first four columns populate the dict (IndexError on a
shorter row propagates); the fifth column sets is_omitted = True when it
is "true" after lower().strip(), the source forgets to store False when
it is not, and a missing fifth column stores is_omitted = False. -/
def processRow (row : List String) : Except PyExc (List (String × MapVal)) :=
  match pyIdx row 0 with
  | .error e => .error e
  | .ok f0 =>
  match pyIdx row 1 with
  | .error e => .error e
  | .ok f1 =>
  match pyIdx row 2 with
  | .error e => .error e
  | .ok f2 =>
  match pyIdx row 3 with
  | .error e => .error e
  | .ok f3 =>
    let data := [("from_field", MapVal.s f0), ("from_units", MapVal.s f1),
      ("to_table_name", MapVal.s f2), ("to_field", MapVal.s f3)]
    match row.get? 4 with
    | some col5 =>
      if pyStrip (pyLower col5) == "true" then .ok (data ++ [("is_omitted", MapVal.b true)])
      else .ok data
    | none => .ok (data ++ [("is_omitted", MapVal.b false)])

/-- read_map_file over the data rows (after the header skip): each row
becomes a dict appended to maplist, any row error aborts the read. -/
def readMapRows (rows : List (List String)) : Except PyExc (List (List (String × MapVal))) :=
  match rows with
  | [] => .ok []
  | r :: rest =>
    match processRow r with
    | .error e => .error e
    | .ok d =>
      match readMapRows rest with
      | .error e => .error e
      | .ok ds => .ok (d :: ds)

/-- Lookup in a row dict produced by read_map_file. -/
def rowLookup (d : List (String × MapVal)) (key : String) : Option MapVal :=
  (d.find? (fun kv => kv.1 == key)).map (·.2)

/-- Python dict subscript progress_result["progress"]: KeyError when the
key is absent, TypeError when the value is not a dict. -/
def pySubscript (j : Json) (key : String) : Except PyExc Json :=
  match j with
  | .obj _ =>
    match jsonLookup j key with
    | some v => .ok v
    | none => .error .keyError
  | _ => .error (.typeError "not subscriptable")

/-- One iteration body of SeedClient.track_progress_result
(seed_client.py lines 811-831). The argument is the outcome of the
client.get poll: none when it raised (the except branch sets
progress_result = None), some v when it returned payload v. The result
is some r when the iteration returns r, ok none when it falls into the
recursive call, and an error when progress_result is truthy but
subscripting it with "progress" raises. -/
def trackStep (poll : Option Json) : Except PyExc (Option Json) :=
  match poll with
  | none => .ok none
  | some v =>
    if pyTruthy v then
      match pySubscript v "progress" with
      | .error e => .error e
      | .ok p => .ok (if Json.beq p (.num 100) then some v else none)
    else .ok none

/-- SeedClient.track_progress_result unrolled over a stream of poll
outcomes, with an explicit fuel bound on the number of polls: polls i is
the outcome of the (i+1)-th client.get call, none is returned when the
fuel runs out before the loop does (the time.sleep between polls is not
modelled). -/
def trackLoop (polls : Nat → Option Json) : Nat → Nat → Option (Except PyExc Json)
  | _, 0 => none
  | i, fuel + 1 =>
    match trackStep (polls i) with
    | .error e => some (.error e)
    | .ok (some r) => some (.ok r)
    | .ok none => trackLoop polls (i + 1) fuel

/-- Whether a modelled computation returned normally. -/
def excOk {α : Type} : Except PyExc α → Bool
  | .ok _ => true
  | .error _ => false

/-- Whether a modelled computation raised APIClientError. -/
def excIsApiClientErr {α : Type} : Except PyExc α → Bool
  | .error (.apiClientError _) => true
  | _ => false

/-- Whether a modelled computation raised TypeError. -/
def excIsTypeErr {α : Type} : Except PyExc α → Bool
  | .error (.typeError _) => true
  | _ => false

/-- Whether an exception value is a SEEDError. -/
def isSeedErr : PyExc → Bool
  | .seedError _ _ _ _ => true
  | _ => false

/-- Appending "/" yields a string ending in "/". -/
theorem pyEndsWith_append_slash (s : String) : pyEndsWith (s ++ "/") "/" = true := by
  obtain ⟨l⟩ := s
  simp [pyEndsWith, String.data, List.isSuffixOf, List.isPrefixOf]

/-- Conditionally appending "/" always yields a string ending in "/". -/
theorem pyEndsWith_slashStep (w : String) :
    pyEndsWith (if pyEndsWith w "/" = false then w ++ "/" else w) "/" = true := by
  cases hb : pyEndsWith w "/" with
  | false => simpa [hb] using pyEndsWith_append_slash w
  | true => simp [hb]

/-- C7: UserAuthMixin._get_auth builds an HTTP digest authentication
object from username and password exactly when auth_method equals
"digest" and an HTTP basic authentication object otherwise; in both
cases an unset password attribute makes api_key the password. -/
theorem getAuth_spec (c : AuthClient) :
    ((getAuth c).isDigest = true ↔ c.auth_method = some "digest") ∧
    (getAuth c).user = c.username ∧
    (c.password = none → (getAuth c).pass = c.api_key) := by
  unfold getAuth
  by_cases h : c.auth_method = some "digest"
  · simp [h, Auth.isDigest, Auth.user, Auth.pass]
    intro hp
    simp [hp, optFalsy]
  · simp [h, Auth.isDigest, Auth.user, Auth.pass]
    intro hp
    simp [hp, optFalsy]

/-- Witness for getAuth_spec at a concrete digest-configured client. -/
theorem getAuth_spec_witness :
    ((getAuth ⟨some "user", none, some "key", some "digest"⟩).isDigest = true ↔
      (AuthClient.mk (some "user") none (some "key") (some "digest")).auth_method = some "digest") ∧
    (getAuth ⟨some "user", none, some "key", some "digest"⟩).user =
      (AuthClient.mk (some "user") none (some "key") (some "digest")).username ∧
    ((AuthClient.mk (some "user") none (some "key") (some "digest")).password = none →
      (getAuth ⟨some "user", none, some "key", some "digest"⟩).pass =
        (AuthClient.mk (some "user") none (some "key") (some "digest")).api_key) :=
  getAuth_spec ⟨some "user", none, some "key", some "digest"⟩

/-- C9: add_pk raises APIClientError exactly when required is true and
pk is falsy; for truthy pk it raises TypeError exactly when pk is a
string that is not all digits, is neither an int nor a str, or converts
to a negative integer; otherwise it returns the url with "/<pk>"
appended without doubling an existing trailing slash, and any returned
url ends with "/" whenever slash is true. -/
theorem add_pk_spec (url : String) (pk : PyPk) (required slash : Bool) :
    (excIsApiClientErr (add_pk url pk required slash) = (required && !(pkTruthy pk))) ∧
    (pkTruthy pk = true →
      (excIsTypeErr (add_pk url pk required slash) = true ↔
        ((pkIsStr pk = true ∧ pyIsdigit (pkStr pk) = false) ∨
          pkIsIntOrStr pk = false ∨ pkToInt pk < 0))) ∧
    (pkTruthy pk = true →
      excIsTypeErr (add_pk url pk required slash) = false →
      add_pk url pk required slash =
        .ok (if slash && !(pyEndsWith
                (if !(pyEndsWith url "/") then url ++ "/" ++ pkStr pk else url ++ pkStr pk) "/")
             then (if !(pyEndsWith url "/") then url ++ "/" ++ pkStr pk else url ++ pkStr pk) ++ "/"
             else (if !(pyEndsWith url "/") then url ++ "/" ++ pkStr pk else url ++ pkStr pk))) ∧
    (∀ u, add_pk url pk required slash = .ok u → slash = true → pyEndsWith u "/" = true) := by
  by_cases ht : pkTruthy pk = true
  · by_cases hc : ((pkIsStr pk && !(pyIsdigit (pkStr pk))) ||
        (!(pkIsIntOrStr pk) || decide (pkToInt pk < 0))) = true
    · refine ⟨?_, ?_, ?_, ?_⟩
      · simp [add_pk, ht, hc, excIsApiClientErr]
      · intro _
        constructor
        · intro _
          rcases Bool.or_eq_true_iff.mp hc with h1 | h2
          · exact Or.inl ⟨(Bool.and_eq_true_iff.mp h1).1,
              by simpa using (Bool.and_eq_true_iff.mp h1).2⟩
          · rcases Bool.or_eq_true_iff.mp h2 with h3 | h4
            · exact Or.inr (Or.inl (by simpa using h3))
            · exact Or.inr (Or.inr (by simpa using h4))
        · intro _
          simp [add_pk, ht, hc, excIsTypeErr]
      · intro _ habs
        exfalso
        simp [add_pk, ht, hc, excIsTypeErr] at habs
      · intro u hu
        exfalso
        simp [add_pk, ht, hc] at hu
    · refine ⟨?_, ?_, ?_, ?_⟩
      · simp [add_pk, ht, hc, excIsApiClientErr]
      · intro _
        constructor
        · intro habs
          exfalso
          simp [add_pk, ht, hc, excIsTypeErr] at habs
        · intro h
          exfalso
          apply hc
          rcases h with ⟨h1, h2⟩ | h3 | h4
          · exact Bool.or_eq_true_iff.mpr (Or.inl (Bool.and_eq_true_iff.mpr ⟨h1, by simp [h2]⟩))
          · exact Bool.or_eq_true_iff.mpr (Or.inr (Bool.or_eq_true_iff.mpr (Or.inl (by simp [h3]))))
          · exact Bool.or_eq_true_iff.mpr (Or.inr (Bool.or_eq_true_iff.mpr (Or.inr (by simp [h4]))))
      · intro _ _
        simp [add_pk, ht, hc]
      · intro u hu hs
        subst hs
        simp [add_pk, ht, hc] at hu
        subst hu
        exact pyEndsWith_slashStep _
  · have ht' : pkTruthy pk = false := by simpa using ht
    by_cases hr : required = true
    · refine ⟨?_, ?_, ?_, ?_⟩
      · simp [add_pk, ht', hr, excIsApiClientErr]
      · intro h
        exact absurd h (by simp [ht'])
      · intro h
        exact absurd h (by simp [ht'])
      · intro u hu
        exfalso
        simp [add_pk, ht', hr] at hu
    · have hr' : required = false := by simpa using hr
      refine ⟨?_, ?_, ?_, ?_⟩
      · simp [add_pk, ht', hr', excIsApiClientErr]
      · intro h
        exact absurd h (by simp [ht'])
      · intro h
        exact absurd h (by simp [ht'])
      · intro u hu hs
        subst hs
        simp [add_pk, ht', hr'] at hu
        subst hu
        exact pyEndsWith_slashStep _

/-- Witness for add_pk_spec at a concrete url and pk. -/
theorem add_pk_spec_witness :
    (excIsApiClientErr (add_pk "https://x/api/v3/properties" (.pint 7) true true) =
      (true && !(pkTruthy (.pint 7)))) ∧
    (pkTruthy (.pint 7) = true →
      (excIsTypeErr (add_pk "https://x/api/v3/properties" (.pint 7) true true) = true ↔
        ((pkIsStr (.pint 7) = true ∧ pyIsdigit (pkStr (.pint 7)) = false) ∨
          pkIsIntOrStr (.pint 7) = false ∨ pkToInt (.pint 7) < 0))) ∧
    (pkTruthy (.pint 7) = true →
      excIsTypeErr (add_pk "https://x/api/v3/properties" (.pint 7) true true) = false →
      add_pk "https://x/api/v3/properties" (.pint 7) true true =
        .ok (if true && !(pyEndsWith
                (if !(pyEndsWith "https://x/api/v3/properties" "/")
                 then "https://x/api/v3/properties" ++ "/" ++ pkStr (.pint 7)
                 else "https://x/api/v3/properties" ++ pkStr (.pint 7)) "/")
             then (if !(pyEndsWith "https://x/api/v3/properties" "/")
                 then "https://x/api/v3/properties" ++ "/" ++ pkStr (.pint 7)
                 else "https://x/api/v3/properties" ++ pkStr (.pint 7)) ++ "/"
             else (if !(pyEndsWith "https://x/api/v3/properties" "/")
                 then "https://x/api/v3/properties" ++ "/" ++ pkStr (.pint 7)
                 else "https://x/api/v3/properties" ++ pkStr (.pint 7)))) ∧
    (∀ u, add_pk "https://x/api/v3/properties" (.pint 7) true true = .ok u →
      true = true → pyEndsWith u "/" = true) :=
  add_pk_spec "https://x/api/v3/properties" (.pint 7) true true

/-- A list is a prefix of itself followed by anything. -/
theorem listIsPrefixOf_append (l1 l2 : List Char) : (l1.isPrefixOf (l1 ++ l2)) = true := by
  induction l1 with
  | nil => simp [List.isPrefixOf]
  | cons a as ih => simp [List.isPrefixOf, ih]

/-- A string prefixed by p starts with p. -/
theorem pyStartsWith_append (p s : String) : pyStartsWith (p ++ s) p = true := by
  unfold pyStartsWith
  rw [String.data_append]
  exact listIsPrefixOf_append _ _

/-- C10 (amended): every url _construct_url builds from a supplied
urlstring starts with "https://" when the effective use_ssl is true and
with "http://" when it is false; when no urlstring is supplied the
stored self.url is returned unchanged (whatever its scheme); and the
method raises exactly when the supplied urlstring's scheme contradicts
the effective use_ssl or when neither a urlstring nor a stored url is
available. -/
theorem constructUrl_spec (sSsl : Option Bool) (sUrl us : Option String) (usArg : Option Bool) :
    (optFalsy us = false → ∀ u, constructUrl sSsl sUrl us usArg = .ok u →
      (effUseSsl sSsl usArg = true → pyStartsWith u "https://" = true) ∧
      (effUseSsl sSsl usArg = false → pyStartsWith u "http://" = true)) ∧
    (optFalsy us = true → ∀ u, constructUrl sSsl sUrl us usArg = .ok u → u = sUrl.getD "") ∧
    (excOk (constructUrl sSsl sUrl us usArg) = false ↔
      (optFalsy us = true ∧ optFalsy sUrl = true) ∨
      (optFalsy us = false ∧
        ((pyStartsWith (us.getD "") "https://" = true ∧ effUseSsl sSsl usArg = false) ∨
          (pyStartsWith (us.getD "") "http://" = true ∧ effUseSsl sSsl usArg = true)))) := by
  by_cases hus : optFalsy us = true
  · by_cases hsu : optFalsy sUrl = true
    · refine ⟨?_, ?_, ?_⟩
      · intro h
        exact absurd h (by simp [hus])
      · intro _ u hu
        exfalso
        simp [constructUrl, hus, hsu] at hu
      · simp [constructUrl, hus, hsu, excOk]
    · have hsu' : optFalsy sUrl = false := by simpa using hsu
      refine ⟨?_, ?_, ?_⟩
      · intro h
        exact absurd h (by simp [hus])
      · intro _ u hu
        simp [constructUrl, hus, hsu'] at hu
        exact hu.symm
      · simp [constructUrl, hus, hsu', excOk]
  · have hus' : optFalsy us = false := by simpa using hus
    by_cases h1 : (pyStartsWith (us.getD "") "https://" = true ∧ effUseSsl sSsl usArg = false)
    · refine ⟨?_, ?_, ?_⟩
      · intro _ u hu
        exfalso
        simp [constructUrl, hus', h1.1, h1.2] at hu
      · intro h
        exact absurd h (by simp [hus'])
      · simp [constructUrl, hus', h1.1, h1.2, excOk]
    · by_cases h2 : (pyStartsWith (us.getD "") "http://" = true ∧ effUseSsl sSsl usArg = true)
      · refine ⟨?_, ?_, ?_⟩
        · intro _ u hu
          exfalso
          simp [constructUrl, hus', h2.1, h2.2] at hu
        · intro h
          exact absurd h (by simp [hus'])
        · simp [constructUrl, hus', h2.1, h2.2, excOk]
      · refine ⟨?_, ?_, ?_⟩
        · intro _ u hu
          cases hss : effUseSsl sSsl usArg with
          | true =>
            have hnh : ¬(pyStartsWith (us.getD "") "http://" = true) := fun hq => h2 ⟨hq, hss⟩
            have hnh' : pyStartsWith (us.getD "") "http://" = false := by
              cases hq : pyStartsWith (us.getD "") "http://" with
              | false => rfl
              | true => exact absurd hq hnh
            simp [constructUrl, hus', hss, hnh'] at hu
            constructor
            · intro _
              rw [← hu]
              exact pyStartsWith_append "https://" _
            · intro hfalse
              exact absurd hfalse (by simp)
          | false =>
            have hnh : ¬(pyStartsWith (us.getD "") "https://" = true) := fun hq => h1 ⟨hq, hss⟩
            have hnh' : pyStartsWith (us.getD "") "https://" = false := by
              cases hq : pyStartsWith (us.getD "") "https://" with
              | false => rfl
              | true => exact absurd hq hnh
            simp [constructUrl, hus', hss, hnh'] at hu
            constructor
            · intro htrue
              exact absurd htrue (by simp)
            · intro _
              rw [← hu]
              exact pyStartsWith_append "http://" _
        · intro h
          exact absurd h (by simp [hus'])
        · cases hss : effUseSsl sSsl usArg with
          | true =>
            have hnh' : pyStartsWith (us.getD "") "http://" = false := by
              cases hq : pyStartsWith (us.getD "") "http://" with
              | false => rfl
              | true => exact absurd ⟨hq, hss⟩ h2
            simp [constructUrl, hus', hss, hnh', excOk]
          | false =>
            have hnh' : pyStartsWith (us.getD "") "https://" = false := by
              cases hq : pyStartsWith (us.getD "") "https://" with
              | false => rfl
              | true => exact absurd ⟨hq, hss⟩ h1
            simp [constructUrl, hus', hss, hnh', excOk]

/-- C10 counterexample: with self.use_ssl True and a stored url
"http://example.org", _construct_url called without a urlstring returns
"http://example.org", which does not start with "https://" although the
effective use_ssl is true — the claimed scheme invariant fails on urls
served from the stored attribute. -/
theorem constructUrl_counterexample :
    constructUrl (some true) (some "http://example.org") none none =
      .ok "http://example.org" ∧
    effUseSsl (some true) none = true ∧
    pyStartsWith "http://example.org" "https://" = false :=
  ⟨rfl, rfl, rfl⟩

/-- Witness for constructUrl_spec at a concrete supplied urlstring. -/
theorem constructUrl_spec_witness :
    (optFalsy (some "seed.org") = false →
      ∀ u, constructUrl (some true) none (some "seed.org") none = .ok u →
      (effUseSsl (some true) none = true → pyStartsWith u "https://" = true) ∧
      (effUseSsl (some true) none = false → pyStartsWith u "http://" = true)) ∧
    (optFalsy (some "seed.org") = true →
      ∀ u, constructUrl (some true) none (some "seed.org") none = .ok u →
        u = (none : Option String).getD "") ∧
    (excOk (constructUrl (some true) none (some "seed.org") none) = false ↔
      (optFalsy (some "seed.org") = true ∧ optFalsy (none : Option String) = true) ∨
      (optFalsy (some "seed.org") = false ∧
        ((pyStartsWith ((some "seed.org").getD "") "https://" = true ∧
            effUseSsl (some true) none = false) ∨
          (pyStartsWith ((some "seed.org").getD "") "http://" = true ∧
            effUseSsl (some true) none = true)))) :=
  constructUrl_spec (some true) none (some "seed.org") none

/-- C8: a row read by read_map_file with at least five columns whose
fifth column, lowercased and stripped, is not "true" yields a dict with
no "is_omitted" key; is_omitted is True only for rows whose fifth column
normalizes to "true", and False only for rows with fewer than five
columns. -/
theorem read_map_file_is_omitted (row : List String) (d : List (String × MapVal)) :
    (5 ≤ row.length → processRow row = .ok d →
      pyStrip (pyLower (row.getD 4 "")) ≠ "true" →
      rowLookup d "is_omitted" = none) ∧
    (processRow row = .ok d → rowLookup d "is_omitted" = some (.b true) →
      pyStrip (pyLower (row.getD 4 "")) = "true" ∧ 5 ≤ row.length) ∧
    (processRow row = .ok d → rowLookup d "is_omitted" = some (.b false) →
      row.length < 5) := by
  match row with
  | [] => refine ⟨?_, ?_, ?_⟩ <;> intro h <;> simp_all [processRow, pyIdx]
  | [a] => refine ⟨?_, ?_, ?_⟩ <;> intro h <;> simp_all [processRow, pyIdx]
  | [a, b] => refine ⟨?_, ?_, ?_⟩ <;> intro h <;> simp_all [processRow, pyIdx]
  | [a, b, c] => refine ⟨?_, ?_, ?_⟩ <;> intro h <;> simp_all [processRow, pyIdx]
  | [a, b, c, e] =>
    refine ⟨?_, ?_, ?_⟩
    · intro h
      simp at h
    · intro hp hl
      exfalso
      simp [processRow, pyIdx] at hp
      subst hp
      simp [rowLookup] at hl
    · intro _ _
      simp
  | a :: b :: c :: e :: f :: rest =>
    refine ⟨?_, ?_, ?_⟩
    · intro _ hp hn
      by_cases hc : pyStrip (pyLower f) == "true"
      · exfalso
        apply hn
        simpa [List.getD] using (by simpa using hc : pyStrip (pyLower f) = "true")
      · simp [processRow, pyIdx, hc] at hp
        subst hp
        simp [rowLookup]
    · intro hp hl
      by_cases hc : pyStrip (pyLower f) == "true"
      · refine ⟨by simpa [List.getD] using (by simpa using hc : pyStrip (pyLower f) = "true"), by simp⟩
      · exfalso
        simp [processRow, pyIdx, hc] at hp
        subst hp
        simp [rowLookup] at hl
    · intro hp hl
      exfalso
      by_cases hc : pyStrip (pyLower f) == "true"
      · simp [processRow, pyIdx, hc] at hp
        subst hp
        simp [rowLookup] at hl
      · simp [processRow, pyIdx, hc] at hp
        subst hp
        simp [rowLookup] at hl

/-- Witness for read_map_file_is_omitted at a concrete five-column row. -/
theorem read_map_file_is_omitted_witness :
    (5 ≤ ["a", "b", "c", "d", "FALSE"].length →
      processRow ["a", "b", "c", "d", "FALSE"] =
        .ok [("from_field", .s "a"), ("from_units", .s "b"),
          ("to_table_name", .s "c"), ("to_field", .s "d")] →
      pyStrip (pyLower (["a", "b", "c", "d", "FALSE"].getD 4 "")) ≠ "true" →
      rowLookup [("from_field", .s "a"), ("from_units", .s "b"),
        ("to_table_name", .s "c"), ("to_field", .s "d")] "is_omitted" = none) ∧
    (processRow ["a", "b", "c", "d", "FALSE"] =
        .ok [("from_field", .s "a"), ("from_units", .s "b"),
          ("to_table_name", .s "c"), ("to_field", .s "d")] →
      rowLookup [("from_field", .s "a"), ("from_units", .s "b"),
        ("to_table_name", .s "c"), ("to_field", .s "d")] "is_omitted" = some (.b true) →
      pyStrip (pyLower (["a", "b", "c", "d", "FALSE"].getD 4 "")) = "true" ∧
        5 ≤ ["a", "b", "c", "d", "FALSE"].length) ∧
    (processRow ["a", "b", "c", "d", "FALSE"] =
        .ok [("from_field", .s "a"), ("from_units", .s "b"),
          ("to_table_name", .s "c"), ("to_field", .s "d")] →
      rowLookup [("from_field", .s "a"), ("from_units", .s "b"),
        ("to_table_name", .s "c"), ("to_field", .s "d")] "is_omitted" = some (.b false) →
      ["a", "b", "c", "d", "FALSE"].length < 5) :=
  read_map_file_is_omitted ["a", "b", "c", "d", "FALSE"]
    [("from_field", .s "a"), ("from_units", .s "b"),
      ("to_table_name", .s "c"), ("to_field", .s "d")]

/-- C2: for a response with status code 200, 201 or 202 whose body is a
JSON dict with a truthy "status" field and no "progress_key" key,
_check_response raises exactly when the status field equals "error" (so
not when it equals "success"); when a "progress_key" key is present it
raises exactly when the status field is not one of "not-started",
"success", "parsing". -/
theorem checkResponse_status_classification (resp : Response) (fs : List (String × Json))
    (hs : resp.status_code = 200 ∨ resp.status_code = 201 ∨ resp.status_code = 202)
    (hx : ctContains resp xlsxContentType = false)
    (hp : ctContains resp "application/pdf" = false)
    (hj : ctContains resp "application/json" = true)
    (hb : resp.body = some (.obj fs))
    (ht : pyTruthy ((jsonLookup (.obj fs) "status").getD .null) = true) :
    ((jsonLookup (.obj fs) "progress_key").isSome = false →
      (excOk (checkResponse resp) = false ↔
        Json.beq ((jsonLookup (.obj fs) "status").getD .null) (.str "error") = true)) ∧
    ((jsonLookup (.obj fs) "progress_key").isSome = true →
      (excOk (checkResponse resp) = false ↔
        (["not-started", "success", "parsing"].any
          (fun s => Json.beq ((jsonLookup (.obj fs) "status").getD .null) (.str s))) = false)) := by
  have hsa : statusAllowed resp.status_code = true := by
    rcases hs with h | h | h <;> simp [statusAllowed, h]
  have hs204 : (resp.status_code == 204) = false := by
    rcases hs with h | h | h <;> simp [h]
  constructor
  · intro hpk
    cases hbq : Json.beq ((jsonLookup (.obj fs) "status").getD .null) (.str "error") with
    | true =>
      simp only [checkResponse, checkFlag, hsa, hs204, hx, hp, hj, hb, dictFlag,
        ht, hpk, hbq, Bool.not_true, Bool.false_eq_true, if_false, if_true,
        Except.map]
      simp [excOk]
    | false =>
      simp only [checkResponse, checkFlag, hsa, hs204, hx, hp, hj, hb, dictFlag,
        ht, hpk, hbq, Bool.not_true, Bool.false_eq_true, if_false, if_true,
        Except.map]
      simp [excOk]
  · intro hpk
    cases hbq : (["not-started", "success", "parsing"].any
        (fun s => Json.beq ((jsonLookup (.obj fs) "status").getD .null) (.str s))) with
    | true =>
      simp only [checkResponse, checkFlag, hsa, hs204, hx, hp, hj, hb, dictFlag,
        ht, hpk, hbq, Bool.not_true, Bool.false_eq_true, if_false, if_true,
        Except.map]
      simp [excOk]
    | false =>
      simp only [checkResponse, checkFlag, hsa, hs204, hx, hp, hj, hb, dictFlag,
        ht, hpk, hbq, Bool.not_true, Bool.false_eq_true, if_false, if_true,
        Except.map]
      simp [excOk]

/-- Witness for checkResponse_status_classification: a 200 JSON response
whose body is a dict with status "error" and no progress_key. -/
theorem checkResponse_status_classification_witness :
    ((jsonLookup (.obj [("status", .str "error")]) "progress_key").isSome = false →
      (excOk (checkResponse ⟨200, some "application/json", "x",
          some (.obj [("status", .str "error")]),
          "https://seed.org/api/v3/labels/", "GET"⟩) = false ↔
        Json.beq ((jsonLookup (.obj [("status", .str "error")]) "status").getD .null)
          (.str "error") = true)) ∧
    ((jsonLookup (.obj [("status", .str "error")]) "progress_key").isSome = true →
      (excOk (checkResponse ⟨200, some "application/json", "x",
          some (.obj [("status", .str "error")]),
          "https://seed.org/api/v3/labels/", "GET"⟩) = false ↔
        (["not-started", "success", "parsing"].any
          (fun s => Json.beq ((jsonLookup (.obj [("status", .str "error")]) "status").getD .null)
            (.str s))) = false)) :=
  checkResponse_status_classification
    ⟨200, some "application/json", "x", some (.obj [("status", .str "error")]),
      "https://seed.org/api/v3/labels/", "GET"⟩
    [("status", .str "error")]
    (Or.inl rfl) rfl rfl rfl rfl rfl

/-- The constraining loop returns either the whole result or the value
stored under one of the tried names. -/
theorem constrainResult_sub (j : Json) (names : List String) :
    constrainResult j names = j ∨
      ∃ k, k ∈ names ∧ jsonLookup j k = some (constrainResult j names) := by
  induction names with
  | nil => exact Or.inl rfl
  | cons n rest ih =>
    cases j with
    | obj fields =>
      cases hl : jsonLookup (.obj fields) n with
      | some v =>
        cases hn : v.isNull with
        | true =>
          have he : constrainResult (.obj fields) (n :: rest) =
              constrainResult (.obj fields) rest := by
            simp [constrainResult, hl, hn]
          rw [he]
          rcases ih with h | ⟨k, hk, hkl⟩
          · exact Or.inl h
          · exact Or.inr ⟨k, List.mem_cons_of_mem _ hk, hkl⟩
        | false =>
          have he : constrainResult (.obj fields) (n :: rest) = v := by
            simp [constrainResult, hl, hn]
          rw [he]
          exact Or.inr ⟨n, List.mem_cons_self _ _, hl⟩
      | none =>
        have he : constrainResult (.obj fields) (n :: rest) =
            constrainResult (.obj fields) rest := by
          simp [constrainResult, hl]
        rw [he]
        rcases ih with h | ⟨k, hk, hkl⟩
        · exact Or.inl h
        · exact Or.inr ⟨k, List.mem_cons_of_mem _ hk, hkl⟩
    | null =>
      rcases ih with h | ⟨k, hk, hkl⟩
      · exact Or.inl (by simpa [constrainResult] using h)
      · exact absurd hkl (by simp [jsonLookup])
    | bool b =>
      rcases ih with h | ⟨k, hk, hkl⟩
      · exact Or.inl (by simpa [constrainResult] using h)
      · exact absurd hkl (by simp [jsonLookup])
    | num m =>
      rcases ih with h | ⟨k, hk, hkl⟩
      · exact Or.inl (by simpa [constrainResult] using h)
      · exact absurd hkl (by simp [jsonLookup])
    | str s =>
      rcases ih with h | ⟨k, hk, hkl⟩
      · exact Or.inl (by simpa [constrainResult] using h)
      · exact absurd hkl (by simp [jsonLookup])
    | arr xs =>
      rcases ih with h | ⟨k, hk, hkl⟩
      · exact Or.inl (by simpa [constrainResult] using h)
      · exact absurd hkl (by simp [jsonLookup])

/-- C5: for a successful JSON (non-204) response, the value _get_result
hands back is the server's JSON value itself, or the sub-value stored
under the effective data_name or the "data"/"detail" fallbacks, passed
through unchanged. -/
theorem getResult_payload (base : String) (resp : Response) (dn : Option String) (j v : Json)
    (hx : ctContains resp xlsxContentType = false)
    (hj : ctContains resp "application/json" = true)
    (h204 : (resp.status_code == 204) = false)
    (hb : resp.body = some j) :
    getResult base resp dn = .ok (.json v) →
      v = j ∨ ∃ d k, effectiveDataName base resp dn = .ok d ∧
        (k = d ∨ k = "data" ∨ k = "detail") ∧ jsonLookup j k = some v := by
  intro hok
  unfold getResult at hok
  rw [hx] at hok
  rw [hj] at hok
  simp only [Bool.not_true, Bool.false_eq_true, if_false] at hok
  cases he : effectiveDataName base resp dn with
  | error e => rw [he] at hok; exact absurd hok (by simp)
  | ok dnv =>
    rw [he] at hok
    rw [h204] at hok
    simp only [Bool.false_eq_true, if_false, hb] at hok
    cases hnull : j.isNull with
    | true => rw [hnull] at hok; exact absurd hok (by simp)
    | false =>
      rw [hnull] at hok
      simp only [Bool.false_eq_true, if_false] at hok
      by_cases hall : (dnv != "all") = true
      · rw [if_pos hall] at hok
        cases hr2 : (constrainResult j [dnv, "data", "detail"]).isNull with
        | true => rw [hr2] at hok; exact absurd hok (by simp)
        | false =>
          rw [hr2] at hok
          simp only [Bool.false_eq_true, if_false, Except.ok.injEq, ResultVal.json.injEq] at hok
          subst hok
          rcases constrainResult_sub j [dnv, "data", "detail"] with h | ⟨k, hk, hkl⟩
          · exact Or.inl h
          · refine Or.inr ⟨dnv, k, rfl, ?_, hkl.symm ▸ hkl⟩
            simpa using hk
      · have hall' : (dnv != "all") = false := by simpa using hall
        rw [hall'] at hok
        simp only [Bool.false_eq_true, if_false] at hok
        cases hr2 : j.isNull with
        | true => exact absurd (hr2 ▸ hnull) (by simp [hnull, hr2])
        | false =>
          rw [hr2] at hok
          simp only [Bool.false_eq_true, if_false, Except.ok.injEq, ResultVal.json.injEq] at hok
          exact Or.inl hok.symm

/-- Witness for getResult_payload at a concrete JSON response. -/
theorem getResult_payload_witness :
    Json.num 5 = Json.obj [("data", .num 5)] ∨
    ∃ d k, effectiveDataName "https://seed.org/"
        ⟨200, some "application/json", "x", some (.obj [("data", .num 5)]),
          "https://seed.org/api/v3/labels/", "GET"⟩ (some "labels") = .ok d ∧
      (k = d ∨ k = "data" ∨ k = "detail") ∧
      jsonLookup (.obj [("data", .num 5)]) k = some (.num 5) :=
  getResult_payload "https://seed.org/"
    ⟨200, some "application/json", "x", some (.obj [("data", .num 5)]),
      "https://seed.org/api/v3/labels/", "GET"⟩
    (some "labels") (.obj [("data", .num 5)]) (.num 5) rfl rfl rfl rfl rfl

/-- Equality with a JSON number under Json.beq forces that number. -/
theorem Json.beq_num_eq (q : Json) (n : Int) : Json.beq q (.num n) = true → q = .num n := by
  cases q <;> simp [Json.beq]

/-- A value that can be subscripted successfully is a nonempty dict,
hence truthy. -/
theorem pyTruthy_of_pySubscript (v q : Json) (k : String)
    (h : pySubscript v k = .ok q) : pyTruthy v = true := by
  cases v with
  | obj fields =>
    cases fields with
    | nil => simp [pySubscript, jsonLookup] at h
    | cons kv rest => simp [pyTruthy]
  | null => simp [pySubscript] at h
  | bool b => simp [pySubscript] at h
  | num m => simp [pySubscript] at h
  | str s => simp [pySubscript] at h
  | arr xs => simp [pySubscript] at h

/-- An iteration that returns a result only does so when that result's
"progress" entry equals 100. -/
theorem trackStep_some_progress (p : Option Json) (r : Json)
    (h : trackStep p = .ok (some r)) : pySubscript r "progress" = .ok (.num 100) := by
  cases p with
  | none => simp [trackStep] at h
  | some v =>
    by_cases ht : pyTruthy v = true
    · rw [trackStep, ht] at h
      simp only [if_true] at h
      cases hs : pySubscript v "progress" with
      | error e => rw [hs] at h; simp at h
      | ok q =>
        rw [hs] at h
        dsimp only at h
        cases hbq : Json.beq q (.num 100) with
        | false => rw [hbq] at h; simp at h
        | true =>
          rw [hbq] at h
          simp only [if_true, Except.ok.injEq, Option.some.injEq] at h
          subst h
          rw [hs, Json.beq_num_eq q 100 hbq]
    · have ht' : pyTruthy v = false := by simpa using ht
      rw [trackStep, ht'] at h
      simp at h

/-- trackLoop only ever returns a result whose progress equals 100. -/
theorem trackLoop_ok_progress (q : Nat → Option Json) :
    ∀ (fuel i : Nat) (s : Json), trackLoop q i fuel = some (.ok s) →
      pySubscript s "progress" = .ok (.num 100) := by
  intro fuel
  induction fuel with
  | zero => intro i s h; simp [trackLoop] at h
  | succ f ih =>
    intro i s h
    rw [trackLoop] at h
    cases hstep : trackStep (q i) with
    | error e => rw [hstep] at h; simp at h
    | ok o =>
      cases o with
      | some r =>
        rw [hstep] at h
        simp only [Option.some.injEq, Except.ok.injEq] at h
        subst h
        exact trackStep_some_progress _ _ hstep
      | none =>
        rw [hstep] at h
        exact ih (i + 1) s h

/-- Advancing the start index is the same as shifting the poll stream. -/
theorem trackLoop_shift (polls : Nat → Option Json) :
    ∀ (fuel i : Nat), trackLoop polls (i + 1) fuel =
      trackLoop (fun n => polls (n + 1)) i fuel := by
  intro fuel
  induction fuel with
  | zero => intro i; rfl
  | succ f ih =>
    intro i
    rw [trackLoop, trackLoop]
    cases hstep : trackStep (polls (i + 1)) with
    | error e => rfl
    | ok o =>
      cases o with
      | some r => rfl
      | none => exact ih (i + 1)

/-- C4: track_progress_result returns a progress result only when its
"progress" field equals 100; failed polls and polls whose progress is
below 100 fall through to another poll, so when the (N+1)-th poll is the
first to report progress 100 the loop terminates within N+1 polls and
returns that poll's result. -/
theorem track_progress_result_spec (polls : Nat → Option Json) (N : Nat) (r : Json)
    (hN : polls N = some r)
    (hr : pySubscript r "progress" = .ok (.num 100))
    (hbefore : ∀ i, i < N → polls i = none ∨
      ∃ v p, polls i = some v ∧ pySubscript v "progress" = .ok (.num p) ∧ p < 100) :
    (∀ (q : Nat → Option Json) (fuel i : Nat) (s : Json),
        trackLoop q i fuel = some (.ok s) →
        pySubscript s "progress" = .ok (.num 100)) ∧
    trackLoop polls 0 (N + 1) = some (.ok r) := by
  refine ⟨fun q => trackLoop_ok_progress q, ?_⟩
  induction N generalizing polls r with
  | zero =>
    have htr : pyTruthy r = true := pyTruthy_of_pySubscript r _ "progress" hr
    simp [trackLoop, trackStep, hN, htr, hr, Json.beq]
  | succ n ih =>
    have hstep0 : trackStep (polls 0) = .ok none := by
      rcases hbefore 0 (Nat.succ_pos n) with h0 | ⟨v, p, hv, hsub, hlt⟩
      · simp [trackStep, h0]
      · have htv : pyTruthy v = true := pyTruthy_of_pySubscript v _ "progress" hsub
        have hne : (p == (100 : Int)) = false := by
          simp only [beq_eq_false_iff_ne, ne_eq]
          omega
        simp [trackStep, hv, htv, hsub, Json.beq, hne]
    rw [trackLoop, hstep0, trackLoop_shift]
    exact ih (fun m => polls (m + 1)) r hN hr
      (fun i hi => hbefore (i + 1) (Nat.succ_lt_succ hi))

/-- Witness for track_progress_result_spec: one failed poll, then a poll
reporting progress 100. -/
theorem track_progress_result_spec_witness :
    (∀ (q : Nat → Option Json) (fuel i : Nat) (s : Json),
        trackLoop q i fuel = some (.ok s) →
        pySubscript s "progress" = .ok (.num 100)) ∧
    trackLoop (fun n => if n = 0 then none else some (.obj [("progress", .num 100)]))
      0 (1 + 1) = some (.ok (.obj [("progress", .num 100)])) :=
  track_progress_result_spec
    (fun n => if n = 0 then none else some (.obj [("progress", .num 100)]))
    1 (.obj [("progress", .num 100)]) rfl rfl
    (fun i hi => by
      have : i = 0 := by omega
      subst this
      exact Or.inl rfl)

/-- Lookup in the dict built by _get_urls is lookup in the raw map
followed by the base_url join. -/
theorem assocLookup_getUrls (b : String) (m : List (String × String)) (k : String) :
    assocLookup (getUrls b m) k = (assocLookup m k).map (joinUrl b) := by
  induction m with
  | nil => rfl
  | cons kv rest ih =>
    by_cases hk : (kv.1 == k) = true
    · simp [assocLookup, getUrls, List.find?, hk]
    · have hk' : (kv.1 == k) = false := by simpa using hk
      simpa [assocLookup, getUrls, List.find?, hk'] using ih

/-- A successful lookup exhibits a map entry. -/
theorem mem_of_assocLookup (m : List (String × String)) (k v : String)
    (h : assocLookup m k = some v) : (k, v) ∈ m := by
  induction m with
  | nil => simp [assocLookup] at h
  | cons kv rest ih =>
    obtain ⟨k1, v1⟩ := kv
    by_cases hk : (k1 == k) = true
    · unfold assocLookup at h
      rw [@List.find?_cons_of_pos _ (fun kv => kv.1 == k) (k1, v1) rest hk] at h
      simp at h hk
      rw [← hk, ← h]
      exact List.mem_cons_self _ _
    · unfold assocLookup at h
      rw [@List.find?_cons_of_neg _ (fun kv => kv.1 == k) (k1, v1) rest (by simpa using hk)] at h
      exact List.mem_cons_of_mem _ (ih h)

/-- No endpoint name in the v3 map contains a slash. -/
theorem URLS_v3_keys_noslash :
    URLS_v3.all (fun kv => !(containsSlash kv.1)) = true := by rfl

/-- An endpoint name accepted by the map lookup contains no slash. -/
theorem containsSlash_of_lookup (ep path : String)
    (h : assocLookup URLS_v3 ep = some path) : containsSlash ep = false := by
  have hmem := mem_of_assocLookup _ _ _ h
  have hall := URLS_v3_keys_noslash
  rw [List.all_eq_true] at hall
  have := hall _ hmem
  simpa using this

/-- C6: for every endpoint name in the fixed URLS map, each CRUD
wrapper's request url is the base_url joined with the mapped fixed path,
with at most the primary key appended (get/put/patch/delete), a trailing
slash ensured (list/post), placeholder segments substituted, and the
optional organization_id query parameter appended (get). -/
theorem crud_urls_spec (c : Client) (ep path : String) (pk : PyPk) (rq qp : Bool)
    (args : List (String × String))
    (h : assocLookup URLS_v3 ep = some path) :
    urlForList c ep args = .ok (replaceUrlArgs (ensureSlash (joinUrl c.base_url path)) args) ∧
    urlForPost c ep args = .ok (replaceUrlArgs (ensureSlash (joinUrl c.base_url path)) args) ∧
    urlForGet c ep pk rq args qp = (add_pk (joinUrl c.base_url path) pk rq true).map
      (fun u => if qp then replaceUrlArgs u args ++ "?organization_id=" ++ toString c.org_id
                else replaceUrlArgs u args) ∧
    urlForPk c ep pk rq args = (add_pk (joinUrl c.base_url path) pk rq true).map
      (fun u => replaceUrlArgs u args) := by
  have hl : lookupUrl c ep = .ok (joinUrl c.base_url path) := by
    unfold lookupUrl clientUrls
    rw [assocLookup_getUrls, h]
    rfl
  have hns : containsSlash ep = false := containsSlash_of_lookup ep path h
  refine ⟨?_, ?_, ?_, ?_⟩
  · unfold urlForList
    rw [hl]
  · unfold urlForPost
    rw [hns]
    simp only [Bool.false_eq_true, if_false, clientUrls, assocLookup_getUrls, h, Option.map]
  · unfold urlForGet
    rw [hl]
    cases ha : add_pk (joinUrl c.base_url path) pk rq true with
    | error e => simp [ha, Except.map]
    | ok u =>
      by_cases hq : qp = true
      · simp [ha, Except.map, hq]
      · have hq' : qp = false := by simpa using hq
        simp [ha, Except.map, hq']
  · unfold urlForPk
    rw [hl]
    cases ha : add_pk (joinUrl c.base_url path) pk rq true with
    | error e => simp [ha, Except.map]
    | ok u => simp [ha, Except.map]

/-- Witness for crud_urls_spec at the "cycles" endpoint. -/
theorem crud_urls_spec_witness :
    urlForList ⟨1, "https://seed.org/", none, none⟩ "cycles" [] =
      .ok (replaceUrlArgs (ensureSlash (joinUrl "https://seed.org/" "/api/v3/cycles/")) []) ∧
    urlForPost ⟨1, "https://seed.org/", none, none⟩ "cycles" [] =
      .ok (replaceUrlArgs (ensureSlash (joinUrl "https://seed.org/" "/api/v3/cycles/")) []) ∧
    urlForGet ⟨1, "https://seed.org/", none, none⟩ "cycles" (.pint 5) true [] false =
      (add_pk (joinUrl "https://seed.org/" "/api/v3/cycles/") (.pint 5) true true).map
        (fun u => if false then replaceUrlArgs u [] ++ "?organization_id=" ++ toString (1 : Int)
                  else replaceUrlArgs u []) ∧
    urlForPk ⟨1, "https://seed.org/", none, none⟩ "cycles" (.pint 5) true [] =
      (add_pk (joinUrl "https://seed.org/" "/api/v3/cycles/") (.pint 5) true true).map
        (fun u => replaceUrlArgs u []) :=
  crud_urls_spec ⟨1, "https://seed.org/", none, none⟩ "cycles" "/api/v3/cycles/"
    (.pint 5) true false [] rfl

/-- A response with a disallowed status code always makes the
check-then-extract tail raise. -/
theorem processResponse_error_of_badstatus (c : Client) (resp : Response)
    (dn : Option String) (h : statusAllowed resp.status_code = false) :
    excOk (processResponse c resp dn) = false := by
  unfold processResponse checkResponse checkFlag
  rw [h]
  simp [excOk]

/-- A normal return of the check-then-extract tail means the check
passed and the value is exactly the _get_result extraction. -/
theorem processResponse_ok (c : Client) (resp : Response) (dn : Option String)
    (v : ResultVal) (h : processResponse c resp dn = .ok v) :
    checkResponse resp = .ok () ∧ getResult c.base_url resp dn = .ok v := by
  unfold processResponse at h
  cases hc : checkResponse resp with
  | error e => rw [hc] at h; simp at h
  | ok u =>
    cases u
    rw [hc] at h
    exact ⟨rfl, h⟩

/-- C1 (amended): on any response whose status code is not 200, 201, 202
or 204, every CRUD wrapper raises rather than returning; on an allowed
status code a wrapper that returns normally returns exactly the payload
_get_result extracts from the response, after _check_response accepted
it (it still raises when the body's JSON status fields classify the
response as an error or no result can be found). -/
theorem crud_wrappers_response_spec (c : Client) (pk : PyPk) (ep dn : Option String)
    (args : List (String × String)) (rq qp : Bool) (resp : Response) :
    (statusAllowed resp.status_code = false →
      excOk (wrapperGet c pk ep dn args rq qp resp) = false ∧
      excOk (wrapperList c ep dn args resp) = false ∧
      excOk (wrapperPost c ep dn args resp) = false ∧
      excOk (wrapperPut c pk ep dn args rq resp) = false ∧
      excOk (wrapperPatch c pk ep dn args rq resp) = false ∧
      excOk (wrapperDelete c pk ep dn args rq resp) = false) ∧
    (∀ v, wrapperGet c pk ep dn args rq qp resp = .ok v →
      checkResponse resp = .ok () ∧
      getResult c.base_url resp (resolveDn dn c.data_name) = .ok v) ∧
    (∀ v, wrapperList c ep dn args resp = .ok v →
      checkResponse resp = .ok () ∧
      getResult c.base_url resp (resolveDn dn c.data_name) = .ok v) ∧
    (∀ v, wrapperPost c ep dn args resp = .ok v →
      checkResponse resp = .ok () ∧
      getResult c.base_url resp (resolveDn dn c.data_name) = .ok v) ∧
    (∀ v, wrapperPut c pk ep dn args rq resp = .ok v →
      checkResponse resp = .ok () ∧
      getResult c.base_url resp (resolveDn dn c.data_name) = .ok v) ∧
    (∀ v, wrapperPatch c pk ep dn args rq resp = .ok v →
      checkResponse resp = .ok () ∧
      getResult c.base_url resp (resolveDn dn c.data_name) = .ok v) ∧
    (∀ v, wrapperDelete c pk ep dn args rq resp = .ok (some v) →
      resp.status_code ≠ 204 ∧ checkResponse resp = .ok () ∧
      getResult c.base_url resp (resolveDn dn c.data_name) = .ok v) := by
  refine ⟨?_, ?_, ?_, ?_, ?_, ?_, ?_⟩
  · intro hbad
    have hpr := processResponse_error_of_badstatus c resp (resolveDn dn c.data_name) hbad
    have h204 : (resp.status_code != 204) = true := by
      cases hn : resp.status_code == 204 with
      | false => simp [bne, hn]
      | true =>
        exfalso
        have : resp.status_code = 204 := by simpa using hn
        rw [this] at hbad
        simp [statusAllowed] at hbad
    refine ⟨?_, ?_, ?_, ?_, ?_, ?_⟩
    · unfold wrapperGet
      cases hsd : setDefaultReq ep c.endpoint "endpoint" with
      | error e => simp [excOk]
      | ok epv =>
        dsimp only
        cases hurl : urlForGet c epv pk rq args qp with
        | error e => simp [excOk]
        | ok u => exact hpr
    · unfold wrapperList
      cases hsd : setDefaultReq ep c.endpoint "endpoint" with
      | error e => simp [excOk]
      | ok epv =>
        dsimp only
        cases hurl : urlForList c epv args with
        | error e => simp [excOk]
        | ok u => exact hpr
    · unfold wrapperPost
      cases hsd : setDefaultReq ep c.endpoint "endpoint" with
      | error e => simp [excOk]
      | ok epv =>
        dsimp only
        cases hurl : urlForPost c epv args with
        | error e => simp [excOk]
        | ok u => exact hpr
    · unfold wrapperPut
      cases hsd : setDefaultReq ep c.endpoint "endpoint" with
      | error e => simp [excOk]
      | ok epv =>
        dsimp only
        cases hurl : urlForPk c epv pk rq args with
        | error e => simp [excOk]
        | ok u => exact hpr
    · unfold wrapperPatch
      cases hsd : setDefaultReq ep c.endpoint "endpoint" with
      | error e => simp [excOk]
      | ok epv =>
        dsimp only
        cases hurl : urlForPk c epv pk rq args with
        | error e => simp [excOk]
        | ok u => exact hpr
    · unfold wrapperDelete
      cases hsd : setDefaultReq ep c.endpoint "endpoint" with
      | error e => simp [excOk]
      | ok epv =>
        dsimp only
        cases hurl : urlForPk c epv pk rq args with
        | error e => simp [excOk]
        | ok u =>
          dsimp only
          rw [h204]
          simp only [if_true]
          cases hp : processResponse c resp (resolveDn dn c.data_name) with
          | error e => simp [excOk]
          | ok w => rw [hp] at hpr; simp [excOk] at hpr
  · intro v hv
    unfold wrapperGet at hv
    cases hsd : setDefaultReq ep c.endpoint "endpoint" with
    | error e => rw [hsd] at hv; simp at hv
    | ok epv =>
      rw [hsd] at hv
      dsimp only at hv
      cases hurl : urlForGet c epv pk rq args qp with
      | error e => rw [hurl] at hv; simp at hv
      | ok u =>
        rw [hurl] at hv
        exact processResponse_ok c resp _ v hv
  · intro v hv
    unfold wrapperList at hv
    cases hsd : setDefaultReq ep c.endpoint "endpoint" with
    | error e => rw [hsd] at hv; simp at hv
    | ok epv =>
      rw [hsd] at hv
      dsimp only at hv
      cases hurl : urlForList c epv args with
      | error e => rw [hurl] at hv; simp at hv
      | ok u =>
        rw [hurl] at hv
        exact processResponse_ok c resp _ v hv
  · intro v hv
    unfold wrapperPost at hv
    cases hsd : setDefaultReq ep c.endpoint "endpoint" with
    | error e => rw [hsd] at hv; simp at hv
    | ok epv =>
      rw [hsd] at hv
      dsimp only at hv
      cases hurl : urlForPost c epv args with
      | error e => rw [hurl] at hv; simp at hv
      | ok u =>
        rw [hurl] at hv
        exact processResponse_ok c resp _ v hv
  · intro v hv
    unfold wrapperPut at hv
    cases hsd : setDefaultReq ep c.endpoint "endpoint" with
    | error e => rw [hsd] at hv; simp at hv
    | ok epv =>
      rw [hsd] at hv
      dsimp only at hv
      cases hurl : urlForPk c epv pk rq args with
      | error e => rw [hurl] at hv; simp at hv
      | ok u =>
        rw [hurl] at hv
        exact processResponse_ok c resp _ v hv
  · intro v hv
    unfold wrapperPatch at hv
    cases hsd : setDefaultReq ep c.endpoint "endpoint" with
    | error e => rw [hsd] at hv; simp at hv
    | ok epv =>
      rw [hsd] at hv
      dsimp only at hv
      cases hurl : urlForPk c epv pk rq args with
      | error e => rw [hurl] at hv; simp at hv
      | ok u =>
        rw [hurl] at hv
        exact processResponse_ok c resp _ v hv
  · intro v hv
    unfold wrapperDelete at hv
    cases hsd : setDefaultReq ep c.endpoint "endpoint" with
    | error e => rw [hsd] at hv; simp at hv
    | ok epv =>
      rw [hsd] at hv
      dsimp only at hv
      cases hurl : urlForPk c epv pk rq args with
      | error e => rw [hurl] at hv; simp at hv
      | ok u =>
        rw [hurl] at hv
        cases h204 : (resp.status_code != 204) with
        | false =>
          rw [h204] at hv
          simp at hv
        | true =>
          rw [h204] at hv
          simp only [if_true] at hv
          cases hp : processResponse c resp (resolveDn dn c.data_name) with
          | error e => rw [hp] at hv; simp at hv
          | ok w =>
            rw [hp] at hv
            simp only [Except.ok.injEq, Option.some.injEq] at hv
            subst hv
            refine ⟨by simpa using h204, processResponse_ok c resp _ _ hp⟩

/-- C1 counterexample: a response with the allowed status code 200 whose
JSON body carries status "error" makes the get wrapper raise instead of
returning the payload. -/
theorem crud_wrappers_counterexample :
    statusAllowed 200 = true ∧
    excOk (wrapperGet ⟨1, "https://seed.org/", none, none⟩ (.pint 5)
      (some "properties") (some "all") [] true false
      ⟨200, some "application/json", "x", some (.obj [("status", .str "error")]),
        "https://seed.org/api/v3/properties/5/", "GET"⟩) = false :=
  ⟨rfl, rfl⟩

/-- Witness for crud_wrappers_response_spec at a 500-status response and
a 200-status success response processed by the list wrapper. -/
theorem crud_wrappers_response_spec_witness :
    (statusAllowed 500 = false →
      excOk (wrapperGet ⟨1, "https://seed.org/", none, none⟩ (.pint 5)
        (some "properties") (some "all") [] true false
        ⟨500, some "application/json", "x", some (.obj [("status", .str "error")]),
          "https://seed.org/api/v3/properties/5/", "GET"⟩) = false ∧
      excOk (wrapperList ⟨1, "https://seed.org/", none, none⟩
        (some "properties") (some "all") []
        ⟨500, some "application/json", "x", some (.obj [("status", .str "error")]),
          "https://seed.org/api/v3/properties/5/", "GET"⟩) = false ∧
      excOk (wrapperPost ⟨1, "https://seed.org/", none, none⟩
        (some "properties") (some "all") []
        ⟨500, some "application/json", "x", some (.obj [("status", .str "error")]),
          "https://seed.org/api/v3/properties/5/", "GET"⟩) = false ∧
      excOk (wrapperPut ⟨1, "https://seed.org/", none, none⟩ (.pint 5)
        (some "properties") (some "all") [] true
        ⟨500, some "application/json", "x", some (.obj [("status", .str "error")]),
          "https://seed.org/api/v3/properties/5/", "GET"⟩) = false ∧
      excOk (wrapperPatch ⟨1, "https://seed.org/", none, none⟩ (.pint 5)
        (some "properties") (some "all") [] true
        ⟨500, some "application/json", "x", some (.obj [("status", .str "error")]),
          "https://seed.org/api/v3/properties/5/", "GET"⟩) = false ∧
      excOk (wrapperDelete ⟨1, "https://seed.org/", none, none⟩ (.pint 5)
        (some "properties") (some "all") [] true
        ⟨500, some "application/json", "x", some (.obj [("status", .str "error")]),
          "https://seed.org/api/v3/properties/5/", "GET"⟩) = false) ∧
    (∀ v, wrapperGet ⟨1, "https://seed.org/", none, none⟩ (.pint 5)
        (some "properties") (some "all") [] true false
        ⟨500, some "application/json", "x", some (.obj [("status", .str "error")]),
          "https://seed.org/api/v3/properties/5/", "GET"⟩ = .ok v →
      checkResponse ⟨500, some "application/json", "x", some (.obj [("status", .str "error")]),
          "https://seed.org/api/v3/properties/5/", "GET"⟩ = .ok () ∧
      getResult "https://seed.org/"
        ⟨500, some "application/json", "x", some (.obj [("status", .str "error")]),
          "https://seed.org/api/v3/properties/5/", "GET"⟩
        (resolveDn (some "all") none) = .ok v) ∧
    (∀ v, wrapperList ⟨1, "https://seed.org/", none, none⟩
        (some "properties") (some "all") []
        ⟨500, some "application/json", "x", some (.obj [("status", .str "error")]),
          "https://seed.org/api/v3/properties/5/", "GET"⟩ = .ok v →
      checkResponse ⟨500, some "application/json", "x", some (.obj [("status", .str "error")]),
          "https://seed.org/api/v3/properties/5/", "GET"⟩ = .ok () ∧
      getResult "https://seed.org/"
        ⟨500, some "application/json", "x", some (.obj [("status", .str "error")]),
          "https://seed.org/api/v3/properties/5/", "GET"⟩
        (resolveDn (some "all") none) = .ok v) ∧
    (∀ v, wrapperPost ⟨1, "https://seed.org/", none, none⟩
        (some "properties") (some "all") []
        ⟨500, some "application/json", "x", some (.obj [("status", .str "error")]),
          "https://seed.org/api/v3/properties/5/", "GET"⟩ = .ok v →
      checkResponse ⟨500, some "application/json", "x", some (.obj [("status", .str "error")]),
          "https://seed.org/api/v3/properties/5/", "GET"⟩ = .ok () ∧
      getResult "https://seed.org/"
        ⟨500, some "application/json", "x", some (.obj [("status", .str "error")]),
          "https://seed.org/api/v3/properties/5/", "GET"⟩
        (resolveDn (some "all") none) = .ok v) ∧
    (∀ v, wrapperPut ⟨1, "https://seed.org/", none, none⟩ (.pint 5)
        (some "properties") (some "all") [] true
        ⟨500, some "application/json", "x", some (.obj [("status", .str "error")]),
          "https://seed.org/api/v3/properties/5/", "GET"⟩ = .ok v →
      checkResponse ⟨500, some "application/json", "x", some (.obj [("status", .str "error")]),
          "https://seed.org/api/v3/properties/5/", "GET"⟩ = .ok () ∧
      getResult "https://seed.org/"
        ⟨500, some "application/json", "x", some (.obj [("status", .str "error")]),
          "https://seed.org/api/v3/properties/5/", "GET"⟩
        (resolveDn (some "all") none) = .ok v) ∧
    (∀ v, wrapperPatch ⟨1, "https://seed.org/", none, none⟩ (.pint 5)
        (some "properties") (some "all") [] true
        ⟨500, some "application/json", "x", some (.obj [("status", .str "error")]),
          "https://seed.org/api/v3/properties/5/", "GET"⟩ = .ok v →
      checkResponse ⟨500, some "application/json", "x", some (.obj [("status", .str "error")]),
          "https://seed.org/api/v3/properties/5/", "GET"⟩ = .ok () ∧
      getResult "https://seed.org/"
        ⟨500, some "application/json", "x", some (.obj [("status", .str "error")]),
          "https://seed.org/api/v3/properties/5/", "GET"⟩
        (resolveDn (some "all") none) = .ok v) ∧
    (∀ v, wrapperDelete ⟨1, "https://seed.org/", none, none⟩ (.pint 5)
        (some "properties") (some "all") [] true
        ⟨500, some "application/json", "x", some (.obj [("status", .str "error")]),
          "https://seed.org/api/v3/properties/5/", "GET"⟩ = .ok (some v) →
      (500 : Nat) ≠ 204 ∧
      checkResponse ⟨500, some "application/json", "x", some (.obj [("status", .str "error")]),
          "https://seed.org/api/v3/properties/5/", "GET"⟩ = .ok () ∧
      getResult "https://seed.org/"
        ⟨500, some "application/json", "x", some (.obj [("status", .str "error")]),
          "https://seed.org/api/v3/properties/5/", "GET"⟩
        (resolveDn (some "all") none) = .ok v) :=
  crud_wrappers_response_spec ⟨1, "https://seed.org/", none, none⟩ (.pint 5)
    (some "properties") (some "all") [] true false
    ⟨500, some "application/json", "x", some (.obj [("status", .str "error")]),
      "https://seed.org/api/v3/properties/5/", "GET"⟩

/-- Python list indexing only raises IndexError. -/
theorem pyIdx_error (xs : List String) (i : Nat) (e : PyExc)
    (h : pyIdx xs i = .error e) : e = .indexError := by
  unfold pyIdx at h
  cases hq : xs.get? i with
  | some v => rw [hq] at h; simp at h
  | none =>
    rw [hq] at h
    simp only [Except.error.injEq] at h
    exact h.symm

/-- The url-derived data_name computation only raises IndexError. -/
theorem deriveDataName_error (b u : String) (e : PyExc)
    (h : deriveDataName b u = .error e) : e = .indexError := by
  unfold deriveDataName at h
  dsimp only at h
  cases h1 : pyIdx (pyRsplitSlash (pyRstrip (pyLstrip u b) "/") 1) 1 with
  | error e1 =>
    rw [h1] at h
    dsimp only at h
    simp only [Except.error.injEq] at h
    exact h ▸ pyIdx_error _ _ _ h1
  | ok lastSeg =>
    rw [h1] at h
    dsimp only at h
    by_cases hd : pyIsdigit lastSeg = true
    · simp only [hd, if_true] at h
      cases h0 : pyIdx (pyRsplitSlash (pyRstrip (pyLstrip u b) "/") 1) 0 with
      | error e0 =>
        rw [h0] at h
        dsimp only at h
        simp only [Except.error.injEq] at h
        exact h ▸ pyIdx_error _ _ _ h0
      | ok head =>
        rw [h0] at h
        dsimp only at h
        exact pyIdx_error _ _ _ h
    · have hd' : pyIsdigit lastSeg = false := by simpa using hd
      simp [hd'] at h

/-- The effective data_name computation only raises IndexError. -/
theorem effectiveDataName_error (b : String) (resp : Response) (dn : Option String)
    (e : PyExc) (h : effectiveDataName b resp dn = .error e) : e = .indexError := by
  unfold effectiveDataName at h
  by_cases hf : optFalsy dn = true
  · rw [hf] at h
    simp only [if_true] at h
    exact deriveDataName_error _ _ _ h
  · have hf' : optFalsy dn = false := by simpa using hf
    simp [hf'] at h

/-- Everything _get_result raises is a SEEDError carrying the response's
url, verb and status code, or an interpreter-level decode/index error. -/
theorem getResult_error (b : String) (resp : Response) (dn : Option String) (e : PyExc)
    (h : getResult b resp dn = .error e) :
    (∃ msg, e = .seedError msg resp.request_url resp.request_method resp.status_code) ∨
    e = .jsonDecodeError ∨ e = .indexError := by
  unfold getResult at h
  by_cases hx : ctContains resp xlsxContentType = true
  · rw [hx] at h
    simp at h
  · have hx' : ctContains resp xlsxContentType = false := by simpa using hx
    rw [hx'] at h
    simp only [Bool.false_eq_true, if_false] at h
    by_cases hj : ctContains resp "application/json" = true
    · rw [hj] at h
      simp only [Bool.not_true, Bool.false_eq_true, if_false] at h
      cases he : effectiveDataName b resp dn with
      | error e1 =>
        rw [he] at h
        dsimp only at h
        simp only [Except.error.injEq] at h
        exact Or.inr (Or.inr (h ▸ effectiveDataName_error _ _ _ _ he))
      | ok dnv =>
        rw [he] at h
        dsimp only at h
        by_cases h204 : (resp.status_code == 204) = true
        · rw [h204] at h
          simp only [if_true] at h
          rw [show (Json.obj [("status", Json.str "success")]).isNull = false from rfl] at h
          simp only [Bool.false_eq_true, if_false] at h
          by_cases h2 : (if (dnv != "all") = true
              then constrainResult (.obj [("status", .str "success")]) [dnv, "data", "detail"]
              else Json.obj [("status", .str "success")]).isNull = true
          · rw [if_pos h2] at h
            simp only [Except.error.injEq] at h
            exact Or.inl ⟨_, h.symm⟩
          · rw [if_neg h2] at h
            simp at h
        · have h204' : (resp.status_code == 204) = false := by simpa using h204
          rw [h204'] at h
          simp only [Bool.false_eq_true, if_false] at h
          cases hb : resp.body with
          | none =>
            rw [hb] at h
            dsimp only at h
            simp only [Except.error.injEq] at h
            exact Or.inr (Or.inl h.symm)
          | some j =>
            rw [hb] at h
            dsimp only at h
            by_cases hn : j.isNull = true
            · rw [hn] at h
              simp only [if_true] at h
              simp only [Except.error.injEq] at h
              exact Or.inl ⟨_, h.symm⟩
            · have hn' : j.isNull = false := by simpa using hn
              rw [hn'] at h
              simp only [Bool.false_eq_true, if_false] at h
              by_cases h2 : (if (dnv != "all") = true
                  then constrainResult j [dnv, "data", "detail"] else j).isNull = true
              · rw [if_pos h2] at h
                simp only [Except.error.injEq] at h
                exact Or.inl ⟨_, h.symm⟩
              · rw [if_neg h2] at h
                simp at h
    · have hj' : ctContains resp "application/json" = false := by simpa using hj
      rw [hj'] at h
      simp at h

/-- The dict classification of _check_response only raises
AttributeError (calling .get on a non-dict progress_data). -/
theorem dictFlag_error (j : Json) (e : PyExc) (h : dictFlag j = .error e) :
    ∃ m, e = .attributeError m := by
  unfold dictFlag at h
  dsimp only at h
  by_cases ht : pyTruthy ((jsonLookup j "status").getD .null) = true
  · rw [ht] at h
    simp only [if_true] at h
    split at h
    · simp at h
    · split at h <;> simp at h
  · have ht' : pyTruthy ((jsonLookup j "status").getD .null) = false := by simpa using ht
    rw [ht'] at h
    simp only [Bool.false_eq_true, if_false] at h
    by_cases hs : (jsonLookup j "success").isSome = true
    · rw [hs] at h
      simp at h
    · have hs' : (jsonLookup j "success").isSome = false := by simpa using hs
      rw [hs'] at h
      simp only [Bool.false_eq_true, if_false] at h
      by_cases hpd : (jsonLookup j "progress_data").isSome = true
      · rw [hpd] at h
        simp only [if_true] at h
        split at h
        · simp at h
        · simp only [Except.error.injEq] at h
          exact ⟨_, h.symm⟩
      · have hpd' : (jsonLookup j "progress_data").isSome = false := by simpa using hpd
        rw [hpd'] at h
        simp only [Bool.false_eq_true, if_false] at h
        split at h <;> simp at h

/-- The classification chain of _check_response raises only the JSON
decode error or an AttributeError. -/
theorem checkFlag_error (resp : Response) (e : PyExc) (h : checkFlag resp = .error e) :
    e = .jsonDecodeError ∨ ∃ m, e = .attributeError m := by
  unfold checkFlag at h
  by_cases h1 : statusAllowed resp.status_code = true
  · rw [h1] at h
    simp only [Bool.not_true, Bool.false_eq_true, if_false] at h
    by_cases h2 : (resp.status_code == 204) = true
    · rw [h2] at h
      simp at h
    · have h2' : (resp.status_code == 204) = false := by simpa using h2
      rw [h2'] at h
      simp only [Bool.false_eq_true, if_false] at h
      by_cases h3 : ctContains resp xlsxContentType = true
      · rw [h3] at h
        simp at h
      · have h3' : ctContains resp xlsxContentType = false := by simpa using h3
        rw [h3'] at h
        simp only [Bool.false_eq_true, if_false] at h
        by_cases h4 : ctContains resp "application/pdf" = true
        · rw [h4] at h
          simp at h
        · have h4' : ctContains resp "application/pdf" = false := by simpa using h4
          rw [h4'] at h
          simp only [Bool.false_eq_true, if_false] at h
          by_cases h5 : ctContains resp "application/json" = true
          · rw [h5] at h
            simp only [Bool.not_true, Bool.false_eq_true, if_false] at h
            cases hb : resp.body with
            | none =>
              rw [hb] at h
              dsimp only at h
              simp only [Except.error.injEq] at h
              exact Or.inl h.symm
            | some j =>
              rw [hb] at h
              dsimp only at h
              cases j with
              | obj fields =>
                cases hdf : dictFlag (.obj fields) with
                | error e1 =>
                  rw [hdf] at h
                  simp only [Except.map, Except.error.injEq] at h
                  exact Or.inr (h ▸ dictFlag_error _ _ hdf)
                | ok b =>
                  rw [hdf] at h
                  simp [Except.map] at h
              | null => simp at h
              | bool b => simp at h
              | num n => simp at h
              | str s => simp at h
              | arr xs => simp at h
          · have h5' : ctContains resp "application/json" = false := by simpa using h5
            rw [h5'] at h
            simp at h
  · have h1' : statusAllowed resp.status_code = false := by simpa using h1
    rw [h1'] at h
    simp at h

/-- Everything _check_response raises is a SEEDError carrying the
response's url, verb and status code, or an interpreter-level error. -/
theorem checkResponse_error (resp : Response) (e : PyExc)
    (h : checkResponse resp = .error e) :
    (∃ msg, e = .seedError msg resp.request_url resp.request_method resp.status_code) ∨
    e = .jsonDecodeError ∨ ∃ m, e = .attributeError m := by
  unfold checkResponse at h
  cases hf : checkFlag resp with
  | error e1 =>
    rw [hf] at h
    dsimp only at h
    simp only [Except.error.injEq] at h
    rcases checkFlag_error resp e1 hf with h1 | h1
    · exact Or.inr (Or.inl (h ▸ h1))
    · exact Or.inr (Or.inr (h ▸ h1))
  | ok pair =>
    obtain ⟨b, baseMsg⟩ := pair
    rw [hf] at h
    cases b with
    | false => simp at h
    | true =>
      simp only [Except.error.injEq] at h
      exact Or.inl ⟨_, h.symm⟩

/-- C3 (amended): every exception raised while a CRUD wrapper handles an
HTTP response is a SEEDError carrying the request url, the HTTP verb,
the response status code and an error message, apart from the
interpreter-level errors that escape the handlers on malformed bodies
(JSON decode error, AttributeError, IndexError); argument errors raised
before the request (missing endpoint, unknown endpoint, invalid pk) are
not SEEDErrors. -/
theorem seed_error_spec (c : Client) (resp : Response) (dn : Option String) (e : PyExc)
    (h : processResponse c resp dn = .error e) :
    (∃ msg, e = .seedError msg resp.request_url resp.request_method resp.status_code) ∨
    e = .jsonDecodeError ∨ (∃ m, e = .attributeError m) ∨ e = .indexError := by
  unfold processResponse at h
  cases hc : checkResponse resp with
  | error e1 =>
    rw [hc] at h
    dsimp only at h
    simp only [Except.error.injEq] at h
    rcases checkResponse_error resp e1 hc with h1 | h1 | h1
    · exact Or.inl (h ▸ h1)
    · exact Or.inr (Or.inl (h ▸ h1))
    · exact Or.inr (Or.inr (Or.inl (h ▸ h1)))
  | ok u =>
    cases u
    rw [hc] at h
    dsimp only at h
    rcases getResult_error c.base_url resp dn e h with h1 | h1 | h1
    · exact Or.inl h1
    · exact Or.inr (Or.inl h1)
    · exact Or.inr (Or.inr (Or.inr h1))

/-- C3 counterexample: a get call with the non-numeric pk "abc" raises a
TypeError from add_pk, not a SEEDError, before any request is made. -/
theorem seed_error_counterexample :
    wrapperGet ⟨1, "https://seed.org/", none, none⟩ (.pstr "abc")
      (some "properties") none [] true false
      ⟨200, some "application/json", "x", some (.obj [("status", .str "success")]),
        "https://seed.org/api/v3/properties/abc/", "GET"⟩ =
      .error (.typeError "id/pk must be a positive integer") ∧
    isSeedErr (.typeError "id/pk must be a positive integer") = false :=
  ⟨rfl, rfl⟩

/-- Witness for seed_error_spec at a 500-status response. -/
theorem seed_error_spec_witness :
    (∃ msg, PyExc.seedError (.str "SEED returned status code: 500")
        "https://seed.org/api/v3/properties/5/" "GET" 500 =
      .seedError msg "https://seed.org/api/v3/properties/5/" "GET" 500) ∨
    PyExc.seedError (.str "SEED returned status code: 500")
        "https://seed.org/api/v3/properties/5/" "GET" 500 = .jsonDecodeError ∨
    (∃ m, PyExc.seedError (.str "SEED returned status code: 500")
        "https://seed.org/api/v3/properties/5/" "GET" 500 = .attributeError m) ∨
    PyExc.seedError (.str "SEED returned status code: 500")
        "https://seed.org/api/v3/properties/5/" "GET" 500 = .indexError :=
  seed_error_spec ⟨1, "https://seed.org/", none, none⟩
    ⟨500, some "application/json", "", none,
      "https://seed.org/api/v3/properties/5/", "GET"⟩
    (some "all")
    (.seedError (.str "SEED returned status code: 500")
      "https://seed.org/api/v3/properties/5/" "GET" 500)
    rfl

end PySeed
